import Mathlib

set_option maxRecDepth 4000

/-!
# PhotoBoothScare — verification of the session orchestrator and services

Shallow embedding of the claim-relevant parts of the repository:

* `src/src/photobooth/managers/session_manager.py` (`SessionManager`),
  together with `utils/photobooth_state.py` (`PhotoBoothState`) and
  `utils/session_action.py` (`SessionAction`);
* `src/src/photobooth/managers/file_manager.py`
  (`FileManager.move_session_files_to_network`);
* `src/src/photobooth/managers/video_manager.py`
  (`VideoManager.write_frame` / `stop_recording`);
* the RTSP health-check / reconnect block of `src/src/photobooth/main.py`.

Times are modelled as rationals (`ℚ`), Python `int()` truncation as
`pyInt`, Python `None` as `Option.none`, and a raised exception as an
`Except.error` carrying the kind of error; mutations performed before a
raise are kept in the returned state.
-/

/-- Python `int(x)` on a real-valued argument truncates toward zero.
For a normalized rational `num/den` (`den > 0`), `Int.tdiv` is exactly
truncation toward zero. -/
def pyInt (q : ℚ) : ℤ := q.num.tdiv q.den

/-- The four phase strings used by `SessionManager` / `PhotoBoothState`:
`'idle'`, `'countdown'`, `'smile'`, `'gotcha'`. -/
inductive Phase where
  | idle
  | countdown
  | smile
  | gotcha
deriving DecidableEq, Repr

/-- The dict built by `_handle_countdown_state` as `action.countdown_update`:
`{"number": .., "play_beep": .., "show_display": .., "trigger_prop": ..}`. -/
structure CountdownUpdate where
  number : ℤ
  playBeep : Bool
  showDisplay : Bool
  triggerProp : Bool
deriving DecidableEq, Repr

/-- The dict assigned to `action.smile_action`.  `_handle_smile_state` sets
only `{"show_display": True}`; the smile sub-phase of
`_handle_gotcha_state` sets all three keys.  An absent key is modelled as
`false` (callers read the keys as booleans with falsy default). -/
structure SmileAct where
  showDisplay : Bool
  capturePhoto : Bool
  playShutter : Bool
deriving DecidableEq, Repr

/-- The dict assigned to `action.gotcha_action`:
`{"show_display": True, "qr_url": f"...id={session_id}"}`. -/
structure GotchaAct where
  showDisplay : Bool
  qrUrl : String
deriving DecidableEq, Repr

/-- `SessionAction` (`utils/session_action.py`): the command object
returned by `SessionManager.update`.  Only the fields that the modelled
code paths ever write are included; all of them start at their
`__init__` defaults (`False` / `None`). -/
structure SessionAction where
  sessionId : Option String := none
  sessionTime : Option String := none
  startVideo : Bool := false
  videoDimensions : Option (ℤ × ℤ) := none
  countdownUpdate : Option CountdownUpdate := none
  smileAction : Option SmileAct := none
  gotchaAction : Option GotchaAct := none
  stopVideo : Bool := false
  moveFiles : Bool := false
  cleanupSession : Bool := false
  sessionComplete : Bool := false
deriving DecidableEq, Repr

/-- Kinds of exception the modelled Python code can raise. -/
inductive PyError where
  | attributeError
  | typeError
deriving DecidableEq, Repr

/-- The configuration dict handed to `SessionManager.__init__`.
`SessionManager` reads it through `config["COUNTDOWN_SECONDS"]`,
`config.get("SMILE_SECONDS", default)`, and — passing *values* where a
key is expected — `config.get(3.0)`, `config.get(1)` and
`config.get(8.0)`.  Each `.get` lookup yields `None` when the key is
absent, hence the `Option` fields: `key3` is the value stored under the
literal key `3.0`, `key1` under the key `1`, `key8` under the key `8.0`
(in any real config, whose keys are strings, all three are `None`). -/
structure SMConfig where
  countdownSeconds : ℤ
  smileSeconds : Option ℚ := none
  key3 : Option ℚ := none
  key1 : Option ℤ := none
  key8 : Option ℚ := none
deriving DecidableEq, Repr

/-- The mutable state of a `SessionManager` instance together with its
`PhotoBoothState` (`self.state`).  `Option (Option _)` distinguishes a
Python attribute that was never created (`none`, access raises
`AttributeError`) from one holding `None` (`some none`): this matters
for `gotcha_start_time`, which `__init__` does not create and which only
`_reset_session` (and the unmodelled `trigger_gotcha`) assigns. -/
structure SMState where
  -- PhotoBoothState fields (self.state)
  phase : Phase
  countdownActive : Bool
  sessionId : Option String
  sessionTime : Option String
  stateCountdownNumber : Option ℤ
  -- SessionManager timing fields
  currentCountdownNumber : Option ℤ
  countdownStartTime : Option ℚ
  smileStartTime : Option ℚ      -- created lazily; guarded by hasattr in the code
  currentSmileSeconds : Option ℤ
  gotchaStartTime : Option (Option ℚ)  -- attribute missing on a fresh instance
  gotchaDisplayStart : Option ℚ
  gotchaCleanupDone : Bool
  lastIdleDebug : Option ℚ       -- created lazily; guarded by hasattr
  -- session bookkeeping
  filesMovedToNetwork : Bool
  videoStopped : Bool
  propTriggered : Bool
  qrStarted : Bool
  countdownBeeped : List ℤ
  smilePhotosTaken : ℤ
  lastSmileTime : ℚ
  lastCountdownNumber : Option ℤ
  lastBeepTime : Option ℚ
  -- values copied from config in __init__
  countdownSeconds : ℤ           -- config["COUNTDOWN_SECONDS"]
  gotchaRecordingExtend : Option ℚ  -- config.get(3.0)
  propTriggerAt : Option ℤ       -- config.get(1)
  -- the config object itself, consulted again by the handlers
  config : SMConfig
deriving DecidableEq, Repr

/-- `SessionManager.__init__(config)`. -/
def initSM (cfg : SMConfig) : SMState where
  phase := .idle
  countdownActive := false
  sessionId := none
  sessionTime := none
  stateCountdownNumber := none
  currentCountdownNumber := none
  countdownStartTime := none
  smileStartTime := none
  currentSmileSeconds := none
  gotchaStartTime := none
  gotchaDisplayStart := none
  gotchaCleanupDone := false
  lastIdleDebug := none
  filesMovedToNetwork := false
  videoStopped := false
  propTriggered := false
  qrStarted := false
  countdownBeeped := []
  smilePhotosTaken := 0
  lastSmileTime := 0
  lastCountdownNumber := none
  lastBeepTime := none
  countdownSeconds := cfg.countdownSeconds
  gotchaRecordingExtend := cfg.key3
  propTriggerAt := cfg.key1
  config := cfg

/-- `SessionManager._reset_session_tracking` (called by `start_countdown`). -/
def resetSessionTracking (s : SMState) : SMState :=
  { s with
    countdownBeeped := []
    smilePhotosTaken := 0
    lastSmileTime := 0
    lastCountdownNumber := none
    filesMovedToNetwork := false
    videoStopped := false
    qrStarted := false
    propTriggered := false }

/-- `SessionManager._reset_session`. -/
def resetSession (s : SMState) : SMState :=
  { s with
    phase := .idle
    countdownActive := false
    sessionId := none
    sessionTime := none
    countdownStartTime := none
    gotchaStartTime := some none
    countdownBeeped := []
    smilePhotosTaken := 0
    lastSmileTime := 0
    lastCountdownNumber := none
    filesMovedToNetwork := false
    videoStopped := false
    qrStarted := false
    currentCountdownNumber := none
    lastBeepTime := none
    currentSmileSeconds := none
    gotchaDisplayStart := none
    gotchaCleanupDone := false
    propTriggered := false }

/-- `SessionManager.start_countdown`.  `now` stands for the value of
`time.time()` at the moment of the call.  Note that this method does
*not* call `PhotoBoothState.start_countdown`, so no session id or
session time is created. -/
def startCountdown (s : SMState) (now : ℚ) : SMState × Bool :=
  if s.phase ≠ .idle then (s, false)
  else
    (resetSessionTracking
      { s with phase := .countdown, countdownStartTime := some now }, true)

/-- The QR payload built in `_handle_gotcha_state`:
`f"http://192.168.86.23/session.php?id={self.state.session_id}"`.
A Python f-string renders `None` as the text `"None"`. -/
def qrUrlOf (sid : Option String) : String :=
  "http://192.168.86.23/session.php?id=" ++ (match sid with
    | some s => s
    | none => "None")

/-- `SessionManager._handle_smile_state(action, now)`: show the smile
overlay; once `now - smile_start_time ≥ SMILE_DURATION`
(`config.get("SMILE_SECONDS", 2.0)`), move to the gotcha phase.  On the
first smile tick `smile_start_time` is set to `now`, so `elapsed = 0`
there. -/
def handleSmileState (s : SMState) (a : SessionAction) (now : ℚ) :
    SMState × Except PyError SessionAction :=
  match s.smileStartTime with
  | none =>
      if (0 : ℚ) ≥ s.config.smileSeconds.getD 2 then
        ({ s with phase := .gotcha, smileStartTime := none },
         .ok { a with smileAction := some ⟨true, false, false⟩ })
      else
        ({ s with smileStartTime := some now },
         .ok { a with smileAction := some ⟨true, false, false⟩ })
  | some st =>
      if now - st ≥ s.config.smileSeconds.getD 2 then
        ({ s with phase := .gotcha, smileStartTime := none },
         .ok { a with smileAction := some ⟨true, false, false⟩ })
      else
        (s, .ok { a with smileAction := some ⟨true, false, false⟩ })

/-- The countdown-finished branch of `_handle_countdown_state`:
`state.countdown_number = None`, `state.end_countdown()` (which flips
the phase to smile), and the countdown fields cleared. -/
def countdownFinishState (s : SMState) : SMState :=
  { s with
    stateCountdownNumber := none
    countdownActive := false
    phase := .smile
    countdownStartTime := none
    currentCountdownNumber := none }

/-- The per-tick body of `_handle_countdown_state` after the
initialization block: compute
`expected_number = countdown_seconds - int(now - countdown_start_time)`
and act on it.  The hardware prop is requested exactly when the number
changes, equals `prop_trigger_at_countdown` and the prop has not fired
in this session yet. -/
def handleCountdownTick (s : SMState) (a : SessionAction) (now : ℚ) :
    SMState × Except PyError SessionAction :=
  match s.countdownStartTime with
  | none => (s, .error .typeError)  -- now - None would raise
  | some st =>
      if s.countdownSeconds - pyInt (now - st) < 1 then
        (countdownFinishState s, .ok a)
      else if s.currentCountdownNumber ≠ some (s.countdownSeconds - pyInt (now - st)) then
        ({ s with
            currentCountdownNumber := some (s.countdownSeconds - pyInt (now - st))
            stateCountdownNumber := some (s.countdownSeconds - pyInt (now - st))
            propTriggered :=
              if some (s.countdownSeconds - pyInt (now - st)) = s.propTriggerAt
                  ∧ s.propTriggered = false then true
              else s.propTriggered },
         .ok { a with
            countdownUpdate := some
              ⟨s.countdownSeconds - pyInt (now - st), true, true,
               decide (some (s.countdownSeconds - pyInt (now - st)) = s.propTriggerAt
                 ∧ s.propTriggered = false)⟩ })
      else
        ({ s with stateCountdownNumber := s.currentCountdownNumber },
         .ok { a with
            countdownUpdate :=
              some ⟨s.currentCountdownNumber.getD 0, false, true, false⟩ })

/-- `SessionManager._handle_countdown_state(action, now,
frame_dimensions, video_recording)`.  If the countdown is just starting
(`current_countdown_number is None`), the number is initialized to
`countdown_seconds`, `countdown_start_time` is overwritten with `now`,
and `start_video` is requested iff no video is recording and
`frame_dimensions` is truthy (any 2-tuple is). -/
def handleCountdownState (s : SMState) (a : SessionAction) (now : ℚ)
    (frameDimensions : Option (ℤ × ℤ)) (videoRecording : Bool) :
    SMState × Except PyError SessionAction :=
  match s.currentCountdownNumber with
  | none =>
      handleCountdownTick
        { s with
            currentCountdownNumber := some s.countdownSeconds
            countdownStartTime := some now }
        (if ¬videoRecording ∧ frameDimensions.isSome then
          { a with startVideo := true, videoDimensions := frameDimensions }
         else a)
        now
  | some _ => handleCountdownTick s a now

/-- The `current_smile_seconds` lazy initialization inside the smile
sub-phase of `_handle_gotcha_state`. -/
def gotchaSmileCur (s : SMState) : SMState :=
  match s.currentSmileSeconds with
  | none => { s with currentSmileSeconds := some 0 }
  | some _ => s

/-- The `gotcha_display_start` lazy initialization inside
`_handle_gotcha_state`. -/
def gotchaDisplayInit (s : SMState) (now : ℚ) : SMState :=
  match s.gotchaDisplayStart with
  | none => { s with gotchaDisplayStart := some now }
  | some _ => s

/-- Cleanup step of `_handle_gotcha_state`: once
`now - gotcha_display_start ≥ gotcha_display_seconds` and cleanup has
not run, request `stop_video` and mark cleanup done. -/
def gotchaStopStep (s : SMState) (a : SessionAction) (now ds g : ℚ) :
    SMState × SessionAction :=
  if now - ds ≥ g ∧ s.gotchaCleanupDone = false then
    ({ s with videoStopped := true, gotchaCleanupDone := true },
     { a with stopVideo := true })
  else (s, a)

/-- File-movement step of `_handle_gotcha_state`: request `move_files`
once the video is finalized, cleanup has stopped it, and the files were
not moved yet. -/
def gotchaMoveStep (s : SMState) (a : SessionAction) (vf : Bool) :
    SMState × SessionAction :=
  if vf ∧ s.filesMovedToNetwork = false ∧ s.videoStopped = true then
    ({ s with filesMovedToNetwork := true }, { a with moveFiles := true })
  else (s, a)

/-- Completion step of `_handle_gotcha_state`: once files are moved, or
`gotcha_display_seconds + 5.0` have elapsed since the display started,
report `session_complete` + `cleanup_session` and `_reset_session()`. -/
def gotchaCompleteStep (s : SMState) (a : SessionAction) (now ds g : ℚ) :
    SMState × Except PyError SessionAction :=
  if s.filesMovedToNetwork = true ∨ now - ds ≥ g + 5 then
    (resetSession s, .ok { a with sessionComplete := true, cleanupSession := true })
  else (s, .ok a)

/-- The tail of `_handle_gotcha_state` past the display-time fetch:
stop-video step, then file-movement step, then completion check. -/
def gotchaCleanupPhase (s : SMState) (a : SessionAction) (now ds g : ℚ)
    (vf : Bool) : SMState × Except PyError SessionAction :=
  gotchaCompleteStep
    (gotchaMoveStep (gotchaStopStep s a now ds g).1 (gotchaStopStep s a now ds g).2 vf).1
    (gotchaMoveStep (gotchaStopStep s a now ds g).1 (gotchaStopStep s a now ds g).2 vf).2
    now ds g

/-- `SessionManager._handle_gotcha_state(action, now, video_recording,
video_finalized)`.  On a fresh instance `self.gotcha_start_time` was
never assigned, so the very first access raises `AttributeError`; after
`_reset_session` it is `None` (falsy, as is `0.0`), so the guard
returns the bare action.  Past the guard the handler runs its smile
photo sub-phase while `now - gotcha_start_time` is below
`config.get("SMILE_SECONDS", 5.0)`, then the gotcha display; there
`gotcha_display_seconds = self.config.get(8.0)` is `None` unless the
dict has the literal key `8.0`, and `now - start >= None` raises
`TypeError` (after `gotcha_display_start` was already assigned). -/
def handleGotchaState (s : SMState) (a : SessionAction) (now : ℚ)
    (_videoRecording : Bool) (videoFinalized : Bool) :
    SMState × Except PyError SessionAction :=
  match s.gotchaStartTime with
  | none => (s, .error .attributeError)
  | some none => (s, .ok a)
  | some (some gs) =>
      if gs = 0 then (s, .ok a)  -- 0.0 is falsy in Python
      else if now - gs < s.config.smileSeconds.getD 5 then
        -- PHASE 1: SMILE — coordinated photo capture
        if some (pyInt (now - gs)) ≠ (gotchaSmileCur s).currentSmileSeconds
            ∧ ((pyInt (now - gs) : ℚ)) < s.config.smileSeconds.getD 5 then
          ({ gotchaSmileCur s with currentSmileSeconds := some (pyInt (now - gs)) },
           .ok { a with smileAction := some ⟨true, true, true⟩ })
        else
          (gotchaSmileCur s, .ok { a with smileAction := some ⟨true, false, false⟩ })
      else
        -- PHASE 2: GOTCHA — scare display with QR, cleanup, completion
        match s.config.key8 with
        | none => (gotchaDisplayInit s now, .error .typeError)
        | some g =>
            gotchaCleanupPhase (gotchaDisplayInit s now)
              { a with gotchaAction := some ⟨true, qrUrlOf s.sessionId⟩ }
              now ((gotchaDisplayInit s now).gotchaDisplayStart.getD now) g
              videoFinalized

/-- The `SessionAction` as first populated by `update`: session id and
time are attached iff `self.state.session_id` is truthy (a `None` or
empty id leaves the fields at their defaults). -/
def baseAction (s : SMState) : SessionAction :=
  match s.sessionId with
  | some sid =>
      if sid = "" then {} else { sessionId := some sid, sessionTime := s.sessionTime }
  | none => {}

/-- The idle branch of `update`: only the `_last_idle_debug` rate-limit
attribute is touched. -/
def idleTickState (s : SMState) (now : ℚ) : SMState :=
  match s.lastIdleDebug with
  | none => { s with lastIdleDebug := some now }
  | some t => if now - t > 2 then { s with lastIdleDebug := some now } else s

/-- `SessionManager.update(now, frame_dimensions, video_recording,
video_finalized)`.  The returned pair is the state after the call and
either the returned `SessionAction` or the exception the call raised. -/
def smUpdate (s : SMState) (now : ℚ) (frameDimensions : Option (ℤ × ℤ))
    (videoRecording : Bool) (videoFinalized : Bool) :
    SMState × Except PyError SessionAction :=
  match s.phase with
  | .idle => (idleTickState s now, .ok (baseAction s))
  | .countdown => handleCountdownState s (baseAction s) now frameDimensions videoRecording
  | .smile => handleSmileState s (baseAction s) now
  | .gotcha => handleGotchaState s (baseAction s) now videoRecording videoFinalized

/-- A call made by the driver: a button press (`start_countdown`) or a
frame tick (`update`). -/
inductive SMEvent where
  | press (now : ℚ)
  | tick (now : ℚ) (frameDimensions : Option (ℤ × ℤ))
      (videoRecording : Bool) (videoFinalized : Bool)
deriving DecidableEq, Repr

instance {ε α : Type} [DecidableEq ε] [DecidableEq α] :
    DecidableEq (Except ε α) := fun x y =>
  match x, y with
  | .ok a, .ok b =>
      if h : a = b then isTrue (by rw [h])
      else isFalse (by intro he; cases he; exact h rfl)
  | .error a, .error b =>
      if h : a = b then isTrue (by rw [h])
      else isFalse (by intro he; cases he; exact h rfl)
  | .ok _, .error _ => isFalse (by intro h; cases h)
  | .error _, .ok _ => isFalse (by intro h; cases h)

/-- Result of one driver call. -/
inductive SMOut where
  | pressed (ok : Bool)
  | acted (r : Except PyError SessionAction)
deriving DecidableEq, Repr

/-- One driver call. -/
def smStep (s : SMState) (e : SMEvent) : SMState × SMOut :=
  match e with
  | .press now =>
      ((startCountdown s now).1, .pressed (startCountdown s now).2)
  | .tick now dims rec fin =>
      ((smUpdate s now dims rec fin).1, .acted (smUpdate s now dims rec fin).2)

/-- Run a sequence of driver calls, returning the final state and the
outcomes in call order. -/
def smRun (s : SMState) : List SMEvent → SMState × List SMOut
  | [] => (s, [])
  | e :: es =>
      ((smRun (smStep s e).1 es).1, (smStep s e).2 :: (smRun (smStep s e).1 es).2)

/-- The list of phases visited along a run, starting with the phase of
the initial state. -/
def phaseTrace (s : SMState) : List SMEvent → List Phase
  | [] => [s.phase]
  | e :: es => s.phase :: phaseTrace (smStep s e).1 es

/-- The `SessionAction`s actually returned (presses and raised
exceptions yield none). -/
def outActions (l : List SMOut) : List SessionAction :=
  l.filterMap fun o =>
    match o with
    | .acted (.ok a) => some a
    | _ => none

/-- Countdown numbers for which a beep was requested, in emission order. -/
def beepNumbers (l : List SMOut) : List ℤ :=
  (outActions l).filterMap fun a =>
    match a.countdownUpdate with
    | some cu => if cu.playBeep then some cu.number else none
    | none => none

/-- Does a returned action ask the caller to fire the hardware prop? -/
def actTrigger (a : SessionAction) : Bool :=
  match a.countdownUpdate with
  | some cu => cu.triggerProp
  | none => false

/-- How many returned actions request the hardware prop trigger. -/
def triggerCount (l : List SMOut) : ℕ :=
  ((outActions l).filter actTrigger).length

/-- Countdown numbers at which the hardware prop trigger was requested,
in emission order. -/
def triggerNumbers (l : List SMOut) : List ℤ :=
  (outActions l).filterMap fun a =>
    match a.countdownUpdate with
    | some cu => if cu.triggerProp then some cu.number else none
    | none => none

/-- Number of `press` events in a driver sequence. -/
def pressCount : List SMEvent → ℕ
  | [] => 0
  | .press _ :: es => pressCount es + 1
  | .tick _ _ _ _ :: es => pressCount es

/-- Countdown numbers displayed (`countdown_update["number"]`), in call
order, beeped or not. -/
def shownNumbers (l : List SMOut) : List ℤ :=
  (outActions l).filterMap fun a =>
    match a.countdownUpdate with
    | some cu => some cu.number
    | none => none

/-- Trigger emissions contributed by a single call outcome. -/
def triggersOfOut (o : SMOut) : ℕ :=
  match o with
  | .acted (.ok a) => if actTrigger a then 1 else 0
  | _ => 0

/-- `press` events contributed by a single event. -/
def evPressCount (e : SMEvent) : ℕ :=
  match e with
  | .press _ => 1
  | .tick _ _ _ _ => 0

/-- Accounting potential for the at-most-one-trigger-per-session proof:
a session that is in its countdown with the prop not yet fired holds one
unspent trigger credit. -/
def triggerCredit (s : SMState) : ℕ :=
  if s.phase = .countdown ∧ s.propTriggered = false then 1 else 0

/-- Did any returned action report session completion? -/
def anySessionComplete (l : List SMOut) : Bool :=
  (outActions l).any fun a => a.sessionComplete

/-- In every state reachable from `initSM` by presses and ticks, the
attribute `gotcha_start_time` is either still missing (fresh instance)
or holds `None` (after `_reset_session`); `trigger_gotcha`, the only
writer of a real start time, is never called by this driver. -/
@[reducible] def gotchaUnset (s : SMState) : Prop :=
  s.gotchaStartTime = none ∨ s.gotchaStartTime = some none

/-- Admissible single-step phase relation: the phase stays put or moves
one edge along the cycle Idle → Countdown → Smile → Gotcha → Idle. -/
@[reducible] def phaseStepOk (p q : Phase) : Prop :=
  q = p ∨ (p = .idle ∧ q = .countdown) ∨ (p = .countdown ∧ q = .smile)
    ∨ (p = .smile ∧ q = .gotcha) ∨ (p = .gotcha ∧ q = .idle)

/-- A typical configuration for the canonical session of the spec:
`COUNTDOWN_SECONDS = 3`, and the prop-trigger lookup `config.get(1)`
finding the value `1` (the only way `prop_trigger_at_countdown` can be
`1`, since `1` is passed as the *key*). -/
def cfgEx : SMConfig := { countdownSeconds := 3, key1 := some 1 }

/-- The canonical driver sequence: button press at `t = 0`, then ticks
twice a second through the countdown, into smile and gotcha, and long
after (`t = 100`) — far beyond any `gotcha_display_seconds + grace`. -/
def evsEx : List SMEvent :=
  [.press 0, .tick 0 (some (640, 480)) false false,
   .tick (1/2) none true false, .tick 1 none true false,
   .tick (3/2) none true false, .tick 2 none true false,
   .tick (5/2) none true false, .tick 3 none true false,
   .tick 4 none true false, .tick 5 none true false,
   .tick 6 none true false, .tick 7 none true true,
   .tick 20 none true true, .tick 100 none true true]

/-- A session with `prop_trigger_at_countdown = 1` and
`countdown_length = 1`: the displayed number is `1` from the very first
tick. -/
def cfgC4 : SMConfig := { countdownSeconds := 1, key1 := some 1 }

/-- Dense ticks for the `countdown_length = 1` session. -/
def evsC4 : List SMEvent :=
  [.press 0, .tick 0 (some (640, 480)) false false,
   .tick (3/10) none true false, .tick (6/10) none true false,
   .tick (9/10) none true false, .tick 1 none true false]

/-- The state after the canonical session has reached the gotcha phase. -/
def gotchaStateEx : SMState := (smRun (initSM cfgEx) evsEx).1

/-- The state right after a successful button press on a fresh manager:
phase countdown, first countdown tick not yet taken. -/
def postPressState : SMState := (smStep (initSM cfgEx) (.press 0)).1

/-- The command returned by a first countdown tick that has no frame
dimensions: number 3 shown, no video start. -/
def firstActNoDims : SessionAction where
  countdownUpdate := some ⟨3, false, true, false⟩

/-! ## File relocation service (`FileManager.move_session_files_to_network`)

A session file is modelled with its name and the outcome the filesystem
would give to the two strategies tried per file: `shutil.move`, and the
`shutil.copy2` + `os.remove` fallback. -/

/-- A file in one of the local capture directories. -/
structure FMFile where
  name : String
  moveOk : Bool
  copyOk : Bool
deriving DecidableEq, Repr

/-- Status of the two network destination directories, as probed by the
existence / `os.makedirs` / write-permission preamble. -/
structure FMDirs where
  photoExists : Bool
  photoMkdirOk : Bool
  photoWritable : Bool
  videoExists : Bool
  videoMkdirOk : Bool
  videoWritable : Bool
deriving DecidableEq, Repr

/-- Local and network directory contents plus destination-dir status. -/
structure FMState where
  dirs : FMDirs
  localPhotos : List FMFile
  localVideos : List FMFile
  netPhotos : List String
  netVideos : List String
deriving DecidableEq, Repr

/-- The exceptions `move_session_files_to_network` can raise. -/
inductive FMErr where
  | mkdirFailed
  | permissionError
  | moveFailed (n : ℕ)
deriving DecidableEq, Repr

/-- Python's `str.startswith` (the effect of the `glob` pattern
`prefix + "*"`), modelled over the character lists of the strings. -/
def pyStartsWith (s pfx : String) : Bool := pfx.data.isPrefixOf s.data

/-- The per-directory loop body: files whose name starts with the
session token are moved (by `move`, else by copy-then-delete); a file
failing both is recorded in `failed_files` and left in place; files not
matching the token are untouched.  Returns the remaining local files,
the moved names and the failed names, in directory order. -/
def migrateDir (pfx : String) : List FMFile → List FMFile × List String × List String
  | [] => ([], [], [])
  | f :: fs =>
      let r := migrateDir pfx fs
      if pyStartsWith f.name pfx then
        if f.moveOk ∨ f.copyOk then (r.1, f.name :: r.2.1, r.2.2)
        else (f :: r.1, r.2.1, f.name :: r.2.2)
      else (f :: r.1, r.2.1, r.2.2)

/-- The destination-directory preamble: for each of the photo and video
network directories, create it if missing (raising if that fails), then
verify writability by a test write (raising `PermissionError` if not). -/
def dirChecks (d : FMDirs) : Except FMErr FMDirs :=
  if ¬d.photoExists ∧ ¬d.photoMkdirOk then .error .mkdirFailed
  else if ¬d.photoWritable then .error .permissionError
  else if ¬d.videoExists ∧ ¬d.videoMkdirOk then .error .mkdirFailed
  else if ¬d.videoWritable then .error .permissionError
  else .ok { d with photoExists := true, videoExists := true }

/-- `FileManager.move_session_files_to_network(session_time, session_id,
...)`.  The session token is `f"{session_time}_{session_id}_"`.  After
both directory loops, the function raises whenever `failed_files` is
non-empty — even if other files were moved (their moves persist on
disk, hence in the returned state); otherwise it returns
`len(moved_files)`. -/
def moveSessionFilesToNetwork (st : FMState) (sessionTime sessionId : String) :
    FMState × Except FMErr ℕ :=
  match dirChecks st.dirs with
  | .error e => (st, .error e)
  | .ok d =>
      if ((migrateDir (sessionTime ++ "_" ++ sessionId ++ "_") st.localPhotos).2.2
            ++ (migrateDir (sessionTime ++ "_" ++ sessionId ++ "_") st.localVideos).2.2) = [] then
        ({ st with
            dirs := d
            localPhotos := (migrateDir (sessionTime ++ "_" ++ sessionId ++ "_") st.localPhotos).1
            localVideos := (migrateDir (sessionTime ++ "_" ++ sessionId ++ "_") st.localVideos).1
            netPhotos := st.netPhotos
              ++ (migrateDir (sessionTime ++ "_" ++ sessionId ++ "_") st.localPhotos).2.1
            netVideos := st.netVideos
              ++ (migrateDir (sessionTime ++ "_" ++ sessionId ++ "_") st.localVideos).2.1 },
         .ok ((migrateDir (sessionTime ++ "_" ++ sessionId ++ "_") st.localPhotos).2.1
            ++ (migrateDir (sessionTime ++ "_" ++ sessionId ++ "_") st.localVideos).2.1).length)
      else
        ({ st with
            dirs := d
            localPhotos := (migrateDir (sessionTime ++ "_" ++ sessionId ++ "_") st.localPhotos).1
            localVideos := (migrateDir (sessionTime ++ "_" ++ sessionId ++ "_") st.localVideos).1
            netPhotos := st.netPhotos
              ++ (migrateDir (sessionTime ++ "_" ++ sessionId ++ "_") st.localPhotos).2.1
            netVideos := st.netVideos
              ++ (migrateDir (sessionTime ++ "_" ++ sessionId ++ "_") st.localVideos).2.1 },
         .error (.moveFailed ((migrateDir (sessionTime ++ "_" ++ sessionId ++ "_") st.localPhotos).2.2
            ++ (migrateDir (sessionTime ++ "_" ++ sessionId ++ "_") st.localVideos).2.2).length))

/-- Destination directories both exist and are writable. -/
@[reducible] def dirsOk (d : FMDirs) : Prop :=
  d.photoExists = true ∧ d.photoWritable = true
    ∧ d.videoExists = true ∧ d.videoWritable = true

/-- Counterexample filesystem for the partial-failure contract: the
photo directory holds two files of session `2025-10-31_19-00-00_S123`;
the first moves fine, the second fails both `move` and the
copy-then-delete fallback. -/
def fmEx : FMState where
  dirs :=
    { photoExists := true, photoMkdirOk := true, photoWritable := true
      videoExists := true, videoMkdirOk := true, videoWritable := true }
  localPhotos :=
    [{ name := "2025-10-31_19-00-00_S123_photo_1.jpg", moveOk := true, copyOk := true },
     { name := "2025-10-31_19-00-00_S123_photo_2.jpg", moveOk := false, copyOk := false }]
  localVideos := []
  netPhotos := []
  netVideos := []

/-- A session whose two photos and one video all relocate cleanly. -/
def fmOkEx : FMState where
  dirs :=
    { photoExists := true, photoMkdirOk := true, photoWritable := true
      videoExists := true, videoMkdirOk := true, videoWritable := true }
  localPhotos :=
    [{ name := "2025-10-31_19-00-00_S123_photo_1.jpg", moveOk := true, copyOk := true },
     { name := "2025-10-31_19-00-00_S123_photo_2.jpg", moveOk := false, copyOk := true }]
  localVideos :=
    [{ name := "2025-10-31_19-00-00_S123_booth.mp4", moveOk := true, copyOk := false }]
  netPhotos := []
  netVideos := []

/-! ## Recording pipeline (`VideoManager`) -/

/-- Externally visible side effects of `stop_recording`. -/
inductive VFileEff where
  | releaseWriter
  | joinAudioThread
  | spawnMuxThread
  | renameTempToFinal
deriving DecidableEq, Repr

/-- `VideoManager` state: the open `cv2.VideoWriter` is modelled as the
list of frames written to it (frames as opaque naturals), `none` when no
writer is open; `frameCount` is the lazily created `_frame_count`
attribute. -/
structure VMState where
  recording : Bool
  videoWriter : Option (List ℕ)
  frameCount : Option ℕ
  audioEnabled : Bool
  audioRecording : Bool
  audioFileOnDisk : Bool
  videoTempOnDisk : Bool
  finalOnDisk : Bool
  muxThreadLive : Bool
deriving DecidableEq, Repr

/-- `VideoManager.__init__`: not recording, no writer, no `_frame_count`
attribute yet. -/
def initVM (audioEnabled : Bool) : VMState where
  recording := false
  videoWriter := none
  frameCount := none
  audioEnabled := audioEnabled
  audioRecording := false
  audioFileOnDisk := false
  videoTempOnDisk := false
  finalOnDisk := false
  muxThreadLive := false

/-- `VideoManager.write_frame(frame)`: only when `self.recording` and
`self.video_writer` are truthy does it bump `_frame_count` (creating it
at 1) and write the frame to the sink. -/
def writeFrame (s : VMState) (frame : ℕ) : VMState :=
  if s.recording then
    match s.videoWriter with
    | some frames =>
        { s with
          frameCount := some (match s.frameCount with
            | some n => n + 1
            | none => 1)
          videoWriter := some (frames ++ [frame]) }
    | none => s
  else s

/-- Writer-release step of `stop_recording`: if a `cv2.VideoWriter` is
open, release it and zero `_frame_count`. -/
def vmReleaseWriter (s : VMState) : VMState × List VFileEff :=
  match s.videoWriter with
  | some _ => ({ s with videoWriter := none, frameCount := some 0 }, [.releaseWriter])
  | none => (s, [])

/-- Audio-stop step of `stop_recording`: flip `audio_recording` and join
the capture thread. -/
def vmStopAudio (s : VMState) : VMState × List VFileEff :=
  if s.audioEnabled ∧ s.audioRecording then
    ({ s with audioRecording := false }, [.joinAudioThread])
  else (s, [])

/-- Finalization step of `stop_recording`: spawn the async ffmpeg mux
thread when an audio track is on disk, otherwise synchronously rename
the video temp file to its final name (when it exists). -/
def vmFinalize (s : VMState) : VMState × List VFileEff :=
  if s.audioEnabled ∧ s.audioFileOnDisk then
    ({ s with muxThreadLive := true }, [.spawnMuxThread])
  else if s.videoTempOnDisk then
    ({ s with videoTempOnDisk := false, finalOnDisk := true }, [.renameTempToFinal])
  else (s, [])

/-- `VideoManager.stop_recording()`: immediate return when not
recording — no state change, no file effect; otherwise the recording
flag flips first, then writer release, audio stop and finalization run
in order. -/
def stopRecording (s : VMState) : VMState × List VFileEff :=
  if ¬s.recording then (s, [])
  else
    ((vmFinalize (vmStopAudio (vmReleaseWriter { s with recording := false }).1).1).1,
      (vmReleaseWriter { s with recording := false }).2
        ++ (vmStopAudio (vmReleaseWriter { s with recording := false }).1).2
        ++ (vmFinalize (vmStopAudio (vmReleaseWriter { s with recording := false }).1).1).2)

/-- A `VideoManager` mid-recording, for exercising `stop_recording`. -/
def vmRecEx : VMState where
  recording := true
  videoWriter := some [7, 8]
  frameCount := some 2
  audioEnabled := false
  audioRecording := false
  audioFileOnDisk := false
  videoTempOnDisk := true
  finalOnDisk := false
  muxThreadLive := false

/-! ## Secondary RTSP stream health check (`main.py`) -/

/-- `rtsp_status` values used by the main loop. -/
inductive RtspStatus where
  | online
  | offline
  | connecting
deriving DecidableEq, Repr

/-- Health-check settings: `RTSP_CHECK_INTERVAL` and `RTSP_MAX_RETRIES`. -/
structure RtspCfg where
  checkInterval : ℚ
  maxRetries : ℕ
deriving DecidableEq, Repr

/-- Mutable loop variables of the health-check block. -/
structure RtspState where
  retries : ℕ
  lastCheck : ℚ
  status : RtspStatus
  managerPresent : Bool
deriving DecidableEq, Repr

/-- What the environment reports during one check: whether the manager's
capture is open / recording, whether a candidate URL was obtained,
whether the bounded probe read a frame, and whether starting the new
manager succeeded. -/
structure RtspObs where
  capOpen : Bool
  isRec : Bool
  candidateFound : Bool
  probeOk : Bool
  startOk : Bool
deriving DecidableEq, Repr

/-- The reconnect attempt of the health-check block: with a candidate
URL in hand the status passes through `CONNECTING` and ends `ONLINE`
(with `rtsp_retries = 0` and a fresh manager) only if both the bounded
probe and the manager start succeed; every other path ends `OFFLINE`
with no manager. -/
def rtspAttempt (s : RtspState) (obs : RtspObs) : RtspState :=
  if obs.candidateFound then
    if obs.probeOk then
      if obs.startOk then
        { s with managerPresent := true, status := .online, retries := 0 }
      else { s with status := .offline }
    else { s with status := .offline }
  else { s with status := .offline }

/-- The tail of the health-check block: once `rtsp_retries` has reached
`rtsp_max_retries`, reset it to 0 and push `rtsp_last_check` four
intervals into the future, deferring the next check. -/
def rtspDefer (cfg : RtspCfg) (s : RtspState) (now : ℚ) : RtspState :=
  if s.retries ≥ cfg.maxRetries then
    { s with retries := 0, lastCheck := now + cfg.checkInterval * 4 }
  else s

/-- One pass of the periodic health-check / reconnect block
(`main.py`, the `now - rtsp_last_check >= rtsp_check_interval` body):
when due, if the stream is alive only `rtsp_last_check` advances;
otherwise `rtsp_retries` is incremented, the old manager is stopped and
dropped, the reconnect attempt runs, and finally the deferral applies
if the counter reached `rtsp_max_retries`. -/
def rtspStep (cfg : RtspCfg) (s : RtspState) (now : ℚ) (obs : RtspObs) : RtspState :=
  if now - s.lastCheck ≥ cfg.checkInterval then
    if s.managerPresent = true ∧ (obs.capOpen = true ∨ obs.isRec = true) then
      { s with lastCheck := now }
    else
      rtspDefer cfg
        (rtspAttempt
          { s with retries := s.retries + 1, managerPresent := false, lastCheck := now }
          obs)
        now
  else s

/-- One failed check where the stream is down and no reconnect path
succeeds. -/
def rtspObsFail : RtspObs where
  capOpen := false
  isRec := false
  candidateFound := false
  probeOk := false
  startOk := false

/-- Default health-check settings (`RTSP_CHECK_INTERVAL = 5.0`,
`RTSP_MAX_RETRIES = 6`). -/
def rtspCfgEx : RtspCfg := { checkInterval := 5, maxRetries := 6 }

/-- A secondary stream that has already failed five consecutive checks. -/
def rtspStEx : RtspState where
  retries := 5
  lastCheck := 0
  status := .offline
  managerPresent := false

/-- Invariant of every state from the first countdown tick onward (the
session never returns to idle under this driver): the phase is not idle,
a countdown phase always has its current number initialized, and
`gotcha_start_time` is still unset.  `start_video` can only be requested
from a countdown state whose current number is `None`, which this
invariant rules out. -/
@[reducible] def noStartInv (s : SMState) : Prop :=
  s.phase ≠ .idle ∧ (s.phase = .countdown → s.currentCountdownNumber ≠ none)
    ∧ gotchaUnset s

/-! ## Structural lemmas about the orchestrator step -/

theorem handleCountdownTick_phase (s : SMState) (a : SessionAction) (now : ℚ) :
    (handleCountdownTick s a now).1.phase = s.phase ∨
      (handleCountdownTick s a now).1.phase = .smile := by
  unfold handleCountdownTick countdownFinishState
  repeat' split
  all_goals simp

theorem handleCountdownState_phase (s : SMState) (a : SessionAction) (now : ℚ)
    (d : Option (ℤ × ℤ)) (r : Bool) :
    (handleCountdownState s a now d r).1.phase = s.phase ∨
      (handleCountdownState s a now d r).1.phase = .smile := by
  unfold handleCountdownState
  split
  · exact handleCountdownTick_phase _ _ _
  · exact handleCountdownTick_phase _ _ _

theorem handleSmileState_phase (s : SMState) (a : SessionAction) (now : ℚ) :
    (handleSmileState s a now).1.phase = s.phase ∨
      (handleSmileState s a now).1.phase = .gotcha := by
  unfold handleSmileState
  repeat' split
  all_goals simp

theorem gotchaStopStep_phase (s : SMState) (a : SessionAction) (now ds g : ℚ) :
    (gotchaStopStep s a now ds g).1.phase = s.phase := by
  unfold gotchaStopStep; split <;> simp

theorem gotchaMoveStep_phase (s : SMState) (a : SessionAction) (vf : Bool) :
    (gotchaMoveStep s a vf).1.phase = s.phase := by
  unfold gotchaMoveStep; split <;> simp

theorem gotchaCompleteStep_phase (s : SMState) (a : SessionAction) (now ds g : ℚ) :
    (gotchaCompleteStep s a now ds g).1.phase = s.phase ∨
      (gotchaCompleteStep s a now ds g).1.phase = .idle := by
  unfold gotchaCompleteStep resetSession; split <;> simp

theorem gotchaSmileCur_phase (s : SMState) : (gotchaSmileCur s).phase = s.phase := by
  unfold gotchaSmileCur; split <;> simp

theorem gotchaDisplayInit_phase (s : SMState) (now : ℚ) :
    (gotchaDisplayInit s now).phase = s.phase := by
  unfold gotchaDisplayInit; split <;> simp

theorem gotchaCleanupPhase_phase (s : SMState) (a : SessionAction) (now ds g : ℚ)
    (vf : Bool) :
    (gotchaCleanupPhase s a now ds g vf).1.phase = s.phase ∨
      (gotchaCleanupPhase s a now ds g vf).1.phase = .idle := by
  unfold gotchaCleanupPhase
  rcases gotchaCompleteStep_phase
      (gotchaMoveStep (gotchaStopStep s a now ds g).1 (gotchaStopStep s a now ds g).2 vf).1
      (gotchaMoveStep (gotchaStopStep s a now ds g).1 (gotchaStopStep s a now ds g).2 vf).2
      now ds g with h | h
  · left; rw [h, gotchaMoveStep_phase, gotchaStopStep_phase]
  · right; exact h

theorem handleGotchaState_phase (s : SMState) (a : SessionAction) (now : ℚ)
    (vr vf : Bool) :
    (handleGotchaState s a now vr vf).1.phase = s.phase ∨
      (handleGotchaState s a now vr vf).1.phase = .idle := by
  unfold handleGotchaState
  repeat' split
  all_goals try (left; rfl)
  · left; simp [gotchaSmileCur_phase]
  · left; exact gotchaSmileCur_phase s
  · left; exact gotchaDisplayInit_phase s now
  · rcases gotchaCleanupPhase_phase (gotchaDisplayInit s now) _ now _ _ vf with h | h
    · left; rw [h, gotchaDisplayInit_phase]
    · right; exact h

theorem idleTickState_phase (s : SMState) (now : ℚ) :
    (idleTickState s now).phase = s.phase := by
  unfold idleTickState
  repeat' split
  all_goals simp

theorem smStep_phase (s : SMState) (e : SMEvent) :
    phaseStepOk s.phase (smStep s e).1.phase := by
  rcases e with now | ⟨now, dims, rec, fin⟩
  · simp only [smStep]
    unfold startCountdown
    by_cases h : s.phase = .idle
    · simp [h, phaseStepOk, resetSessionTracking]
    · simp [h, phaseStepOk]
  · simp only [smStep, smUpdate]
    cases hp : s.phase
    · simp [phaseStepOk, idleTickState_phase, hp]
    · rcases handleCountdownState_phase s (baseAction s) now dims rec with h | h <;>
        simp [phaseStepOk, h, hp]
    · rcases handleSmileState_phase s (baseAction s) now with h | h <;>
        simp [phaseStepOk, h, hp]
    · rcases handleGotchaState_phase s (baseAction s) now rec fin with h | h <;>
        simp [phaseStepOk, h, hp]

theorem phaseTrace_head (s : SMState) (evs : List SMEvent) :
    (phaseTrace s evs).head? = some s.phase := by
  cases evs <;> rfl

theorem chain_phaseTrace (s : SMState) (evs : List SMEvent) :
    List.Chain' phaseStepOk (phaseTrace s evs) := by
  induction evs generalizing s with
  | nil => simp [phaseTrace]
  | cons e es ih =>
      rw [phaseTrace, List.chain'_cons']
      refine ⟨?_, ih _⟩
      intro b hb
      rw [phaseTrace_head] at hb
      simp only [Option.mem_def, Option.some_inj] at hb
      rw [← hb]
      exact smStep_phase s e

@[simp] theorem outActions_nil : outActions [] = [] := rfl

@[simp] theorem outActions_cons_pressed (b : Bool) (l : List SMOut) :
    outActions (.pressed b :: l) = outActions l := rfl

@[simp] theorem outActions_cons_ok (a : SessionAction) (l : List SMOut) :
    outActions (.acted (.ok a) :: l) = a :: outActions l := rfl

@[simp] theorem outActions_cons_error (e : PyError) (l : List SMOut) :
    outActions (.acted (.error e) :: l) = outActions l := rfl

@[simp] theorem baseAction_sessionComplete (s : SMState) :
    (baseAction s).sessionComplete = false := by
  unfold baseAction
  split
  · split <;> rfl
  · rfl

@[simp] theorem baseAction_startVideo (s : SMState) :
    (baseAction s).startVideo = false := by
  unfold baseAction
  split
  · split <;> rfl
  · rfl

@[simp] theorem baseAction_countdownUpdate (s : SMState) :
    (baseAction s).countdownUpdate = none := by
  unfold baseAction
  split
  · split <;> rfl
  · rfl

theorem baseAction_of_no_id (s : SMState) (h : s.sessionId = none) :
    baseAction s = {} := by
  unfold baseAction; rw [h]

theorem startCountdown_notIdle (s : SMState) (now : ℚ) (h : s.phase ≠ .idle) :
    startCountdown s now = (s, false) := by
  unfold startCountdown; simp [h]

theorem startCountdown_gst (s : SMState) (now : ℚ) :
    (startCountdown s now).1.gotchaStartTime = s.gotchaStartTime := by
  unfold startCountdown resetSessionTracking; split <;> simp

theorem idleTickState_gst (s : SMState) (now : ℚ) :
    (idleTickState s now).gotchaStartTime = s.gotchaStartTime := by
  unfold idleTickState; repeat' split; all_goals simp

theorem handleCountdownTick_gst (s : SMState) (a : SessionAction) (now : ℚ) :
    (handleCountdownTick s a now).1.gotchaStartTime = s.gotchaStartTime := by
  unfold handleCountdownTick countdownFinishState
  repeat' split
  all_goals simp

theorem handleCountdownState_gst (s : SMState) (a : SessionAction) (now : ℚ)
    (d : Option (ℤ × ℤ)) (r : Bool) :
    (handleCountdownState s a now d r).1.gotchaStartTime = s.gotchaStartTime := by
  unfold handleCountdownState
  split
  · rw [handleCountdownTick_gst]
  · rw [handleCountdownTick_gst]

theorem handleSmileState_gst (s : SMState) (a : SessionAction) (now : ℚ) :
    (handleSmileState s a now).1.gotchaStartTime = s.gotchaStartTime := by
  unfold handleSmileState
  repeat' split
  all_goals simp

theorem handleGotchaState_unset (s : SMState) (a : SessionAction) (now : ℚ)
    (vr vf : Bool) (h : gotchaUnset s) :
    handleGotchaState s a now vr vf = (s, .ok a) ∨
      handleGotchaState s a now vr vf = (s, .error .attributeError) := by
  rcases h with h | h <;> unfold handleGotchaState <;> rw [h]
  · exact Or.inr rfl
  · exact Or.inl rfl

theorem smStep_gotchaUnset (s : SMState) (e : SMEvent) (h : gotchaUnset s) :
    gotchaUnset (smStep s e).1 := by
  rcases e with now | ⟨now, dims, rec, fin⟩
  · simp only [smStep]
    unfold gotchaUnset at *
    rw [startCountdown_gst]; exact h
  · simp only [smStep, smUpdate]
    cases hp : s.phase
    · unfold gotchaUnset at *; rw [idleTickState_gst]; exact h
    · unfold gotchaUnset at *; rw [handleCountdownState_gst]; exact h
    · unfold gotchaUnset at *; rw [handleSmileState_gst]; exact h
    · rcases handleGotchaState_unset s (baseAction s) now rec fin h with h2 | h2 <;>
        rw [h2] <;> exact h

theorem smStep_gotcha_stuck (s : SMState) (e : SMEvent) (hp : s.phase = .gotcha)
    (hg : gotchaUnset s) :
    (smStep s e).1 = s ∧
      ((smStep s e).2 = .pressed false ∨
        (smStep s e).2 = .acted (.ok (baseAction s)) ∨
        (smStep s e).2 = .acted (.error .attributeError)) := by
  rcases e with now | ⟨now, dims, rec, fin⟩
  · simp only [smStep]
    rw [startCountdown_notIdle s now (by rw [hp]; intro h; cases h)]
    exact ⟨rfl, Or.inl rfl⟩
  · simp only [smStep, smUpdate]
    rw [hp]
    rcases handleGotchaState_unset s (baseAction s) now rec fin hg with h2 | h2 <;>
      rw [h2] <;> simp

theorem smRun_gotcha_stuck (s : SMState) (hp : s.phase = .gotcha)
    (hg : gotchaUnset s) (evs : List SMEvent) :
    (smRun s evs).1 = s ∧ anySessionComplete (smRun s evs).2 = false := by
  induction evs with
  | nil => exact ⟨rfl, rfl⟩
  | cons e es ih =>
      rcases smStep_gotcha_stuck s e hp hg with ⟨h1, h2⟩
      rw [smRun, h1]
      refine ⟨ih.1, ?_⟩
      have h3 := ih.2
      rcases h2 with h2 | h2 | h2 <;> rw [h2] <;>
        simpa [anySessionComplete] using h3

theorem gotchaStopStep_act (s : SMState) (a : SessionAction) (now ds g : ℚ) :
    ((gotchaStopStep s a now ds g).2.sessionId = a.sessionId
      ∧ (gotchaStopStep s a now ds g).2.sessionTime = a.sessionTime)
    ∧ (gotchaStopStep s a now ds g).2.countdownUpdate = a.countdownUpdate
    ∧ (gotchaStopStep s a now ds g).2.startVideo = a.startVideo := by
  unfold gotchaStopStep; split <;> simp

theorem gotchaMoveStep_act (s : SMState) (a : SessionAction) (vf : Bool) :
    ((gotchaMoveStep s a vf).2.sessionId = a.sessionId
      ∧ (gotchaMoveStep s a vf).2.sessionTime = a.sessionTime)
    ∧ (gotchaMoveStep s a vf).2.countdownUpdate = a.countdownUpdate
    ∧ (gotchaMoveStep s a vf).2.startVideo = a.startVideo := by
  unfold gotchaMoveStep; split <;> simp

theorem gotchaCompleteStep_act (s : SMState) (a : SessionAction) (now ds g : ℚ) :
    ∀ a', (gotchaCompleteStep s a now ds g).2 = .ok a' →
      (a'.sessionId = a.sessionId ∧ a'.sessionTime = a.sessionTime)
      ∧ a'.countdownUpdate = a.countdownUpdate
      ∧ a'.startVideo = a.startVideo := by
  unfold gotchaCompleteStep
  split <;> intro a' h <;> cases h <;> simp

theorem gotchaCleanupPhase_act (s : SMState) (a : SessionAction) (now ds g : ℚ)
    (vf : Bool) :
    ∀ a', (gotchaCleanupPhase s a now ds g vf).2 = .ok a' →
      (a'.sessionId = a.sessionId ∧ a'.sessionTime = a.sessionTime)
      ∧ a'.countdownUpdate = a.countdownUpdate
      ∧ a'.startVideo = a.startVideo := by
  intro a' h
  unfold gotchaCleanupPhase at h
  have h3 := gotchaCompleteStep_act
    (gotchaMoveStep (gotchaStopStep s a now ds g).1 (gotchaStopStep s a now ds g).2 vf).1
    (gotchaMoveStep (gotchaStopStep s a now ds g).1 (gotchaStopStep s a now ds g).2 vf).2
    now ds g a' h
  have h2 := gotchaMoveStep_act (gotchaStopStep s a now ds g).1
    (gotchaStopStep s a now ds g).2 vf
  have h1 := gotchaStopStep_act s a now ds g
  exact ⟨⟨h3.1.1.trans (h2.1.1.trans h1.1.1), h3.1.2.trans (h2.1.2.trans h1.1.2)⟩,
    h3.2.1.trans (h2.2.1.trans h1.2.1), h3.2.2.trans (h2.2.2.trans h1.2.2)⟩

theorem handleGotchaState_act (s : SMState) (a : SessionAction) (now : ℚ)
    (vr vf : Bool) :
    ∀ a', (handleGotchaState s a now vr vf).2 = .ok a' →
      (a'.sessionId = a.sessionId ∧ a'.sessionTime = a.sessionTime)
      ∧ a'.countdownUpdate = a.countdownUpdate
      ∧ a'.startVideo = a.startVideo := by
  unfold handleGotchaState
  repeat' split
  all_goals intro a' h
  all_goals try (cases h; simp)
  all_goals try (simp at h)
  · have h4 := gotchaCleanupPhase_act _ _ _ _ _ _ a' h
    refine ⟨⟨?_, ?_⟩, ?_, ?_⟩ <;>
      simp [h4.1.1, h4.1.2, h4.2.1, h4.2.2]

theorem handleCountdownTick_act (s : SMState) (a : SessionAction) (now : ℚ) :
    ∀ a', (handleCountdownTick s a now).2 = .ok a' →
      (a'.sessionId = a.sessionId ∧ a'.sessionTime = a.sessionTime)
      ∧ a'.sessionComplete = a.sessionComplete
      ∧ a'.startVideo = a.startVideo := by
  unfold handleCountdownTick
  repeat' split
  all_goals intro a' h
  all_goals try (cases h; simp)
  all_goals simp at h

theorem handleCountdownState_act (s : SMState) (a : SessionAction) (now : ℚ)
    (d : Option (ℤ × ℤ)) (r : Bool) :
    ∀ a', (handleCountdownState s a now d r).2 = .ok a' →
      (a'.sessionId = a.sessionId ∧ a'.sessionTime = a.sessionTime)
      ∧ a'.sessionComplete = a.sessionComplete := by
  unfold handleCountdownState
  split
  · split
    · intro a' h
      have h2 := handleCountdownTick_act _ _ _ a' h
      simpa using ⟨⟨h2.1.1, h2.1.2⟩, h2.2.1⟩
    · intro a' h
      have h2 := handleCountdownTick_act _ _ _ a' h
      exact ⟨h2.1, h2.2.1⟩
  · intro a' h
    have h2 := handleCountdownTick_act _ _ _ a' h
    exact ⟨h2.1, h2.2.1⟩

theorem handleCountdownState_startVideo (s : SMState) (a : SessionAction) (now : ℚ)
    (d : Option (ℤ × ℤ)) (r : Bool) (hcur : s.currentCountdownNumber ≠ none) :
    ∀ a', (handleCountdownState s a now d r).2 = .ok a' →
      a'.startVideo = a.startVideo := by
  unfold handleCountdownState
  split
  · simp_all
  · intro a' h
    exact (handleCountdownTick_act _ _ _ a' h).2.2

theorem handleSmileState_act (s : SMState) (a : SessionAction) (now : ℚ) :
    ∀ a', (handleSmileState s a now).2 = .ok a' →
      a' = { a with smileAction := some ⟨true, false, false⟩ } := by
  unfold handleSmileState
  repeat' split
  all_goals intro a' h
  all_goals (cases h; rfl)

theorem startCountdown_fields (s : SMState) (now : ℚ) :
    (startCountdown s now).1.sessionId = s.sessionId
    ∧ (startCountdown s now).1.propTriggerAt = s.propTriggerAt := by
  unfold startCountdown resetSessionTracking; split <;> simp

theorem startCountdown_of_idle (s : SMState) (now : ℚ) (h : s.phase = .idle) :
    (startCountdown s now).1.phase = .countdown
    ∧ (startCountdown s now).1.propTriggered = false
    ∧ (startCountdown s now).2 = true := by
  unfold startCountdown resetSessionTracking; simp [h]

theorem idleTickState_fields (s : SMState) (now : ℚ) :
    (idleTickState s now).sessionId = s.sessionId
    ∧ (idleTickState s now).propTriggerAt = s.propTriggerAt
    ∧ (idleTickState s now).propTriggered = s.propTriggered := by
  unfold idleTickState
  repeat' split
  all_goals simp

theorem handleCountdownTick_fields (s : SMState) (a : SessionAction) (now : ℚ) :
    (handleCountdownTick s a now).1.sessionId = s.sessionId
    ∧ (handleCountdownTick s a now).1.propTriggerAt = s.propTriggerAt := by
  unfold handleCountdownTick countdownFinishState
  repeat' split
  all_goals simp

theorem handleCountdownState_fields (s : SMState) (a : SessionAction) (now : ℚ)
    (d : Option (ℤ × ℤ)) (r : Bool) :
    (handleCountdownState s a now d r).1.sessionId = s.sessionId
    ∧ (handleCountdownState s a now d r).1.propTriggerAt = s.propTriggerAt := by
  unfold handleCountdownState
  split
  · constructor
    · rw [handleCountdownTick_fields _ _ _ |>.1]
    · rw [handleCountdownTick_fields _ _ _ |>.2]
  · exact handleCountdownTick_fields _ _ _

theorem handleSmileState_fields (s : SMState) (a : SessionAction) (now : ℚ) :
    (handleSmileState s a now).1.sessionId = s.sessionId
    ∧ (handleSmileState s a now).1.propTriggerAt = s.propTriggerAt
    ∧ (handleSmileState s a now).1.propTriggered = s.propTriggered := by
  unfold handleSmileState
  repeat' split
  all_goals simp

theorem gotchaStopStep_fields (s : SMState) (a : SessionAction) (now ds g : ℚ) :
    (gotchaStopStep s a now ds g).1.sessionId = s.sessionId
    ∧ (gotchaStopStep s a now ds g).1.propTriggerAt = s.propTriggerAt := by
  unfold gotchaStopStep; split <;> simp

theorem gotchaMoveStep_fields (s : SMState) (a : SessionAction) (vf : Bool) :
    (gotchaMoveStep s a vf).1.sessionId = s.sessionId
    ∧ (gotchaMoveStep s a vf).1.propTriggerAt = s.propTriggerAt := by
  unfold gotchaMoveStep; split <;> simp

theorem gotchaCompleteStep_fields (s : SMState) (a : SessionAction) (now ds g : ℚ) :
    ((gotchaCompleteStep s a now ds g).1.sessionId = s.sessionId
      ∨ (gotchaCompleteStep s a now ds g).1.sessionId = none)
    ∧ (gotchaCompleteStep s a now ds g).1.propTriggerAt = s.propTriggerAt := by
  unfold gotchaCompleteStep resetSession; split <;> simp

theorem gotchaSmileCur_fields (s : SMState) :
    (gotchaSmileCur s).sessionId = s.sessionId
    ∧ (gotchaSmileCur s).propTriggerAt = s.propTriggerAt := by
  unfold gotchaSmileCur; split <;> simp

theorem gotchaDisplayInit_fields (s : SMState) (now : ℚ) :
    (gotchaDisplayInit s now).sessionId = s.sessionId
    ∧ (gotchaDisplayInit s now).propTriggerAt = s.propTriggerAt := by
  unfold gotchaDisplayInit; split <;> simp

theorem gotchaCleanupPhase_fields (s : SMState) (a : SessionAction) (now ds g : ℚ)
    (vf : Bool) :
    ((gotchaCleanupPhase s a now ds g vf).1.sessionId = s.sessionId
      ∨ (gotchaCleanupPhase s a now ds g vf).1.sessionId = none)
    ∧ (gotchaCleanupPhase s a now ds g vf).1.propTriggerAt = s.propTriggerAt := by
  unfold gotchaCleanupPhase
  constructor
  · rcases (gotchaCompleteStep_fields
        (gotchaMoveStep (gotchaStopStep s a now ds g).1 (gotchaStopStep s a now ds g).2 vf).1
        (gotchaMoveStep (gotchaStopStep s a now ds g).1 (gotchaStopStep s a now ds g).2 vf).2
        now ds g).1 with h | h
    · left
      rw [h, (gotchaMoveStep_fields _ _ _).1, (gotchaStopStep_fields _ _ _ _ _).1]
    · right; exact h
  · rw [(gotchaCompleteStep_fields _ _ _ _ _).2, (gotchaMoveStep_fields _ _ _).2,
      (gotchaStopStep_fields _ _ _ _ _).2]

theorem handleGotchaState_fields (s : SMState) (a : SessionAction) (now : ℚ)
    (vr vf : Bool) :
    ((handleGotchaState s a now vr vf).1.sessionId = s.sessionId
      ∨ (handleGotchaState s a now vr vf).1.sessionId = none)
    ∧ (handleGotchaState s a now vr vf).1.propTriggerAt = s.propTriggerAt := by
  unfold handleGotchaState
  repeat' split
  all_goals try exact ⟨Or.inl rfl, rfl⟩
  · exact ⟨Or.inl (by simp [(gotchaSmileCur_fields s).1]),
      by simp [(gotchaSmileCur_fields s).2]⟩
  · exact ⟨Or.inl (gotchaSmileCur_fields s).1, (gotchaSmileCur_fields s).2⟩
  · exact ⟨Or.inl (gotchaDisplayInit_fields s now).1, (gotchaDisplayInit_fields s now).2⟩
  · constructor
    · rcases (gotchaCleanupPhase_fields (gotchaDisplayInit s now) _ now _ _ vf).1 with h | h
      · left; rw [h, (gotchaDisplayInit_fields s now).1]
      · right; exact h
    · rw [(gotchaCleanupPhase_fields (gotchaDisplayInit s now) _ now _ _ vf).2,
        (gotchaDisplayInit_fields s now).2]

theorem smStep_sessionId (s : SMState) (e : SMEvent) (h : s.sessionId = none) :
    (smStep s e).1.sessionId = none ∧
      ∀ a, (smStep s e).2 = .acted (.ok a) →
        a.sessionId = none ∧ a.sessionTime = none := by
  rcases e with now | ⟨now, dims, rec, fin⟩
  · simp only [smStep]
    refine ⟨(startCountdown_fields s now).1.trans h, ?_⟩
    intro a ha
    cases ha
  · simp only [smStep, smUpdate]
    have hb : baseAction s = {} := baseAction_of_no_id s h
    cases hp : s.phase
    · refine ⟨(idleTickState_fields s now).1.trans h, ?_⟩
      intro a ha
      injection ha with ha2
      injection ha2 with ha3
      rw [← ha3, hb]
      exact ⟨rfl, rfl⟩
    · refine ⟨(handleCountdownState_fields s _ now dims rec).1.trans h, ?_⟩
      intro a ha
      injection ha with ha2
      have h2 := handleCountdownState_act s (baseAction s) now dims rec a ha2
      rw [hb] at h2
      exact ⟨h2.1.1, h2.1.2⟩
    · refine ⟨(handleSmileState_fields s _ now).1.trans h, ?_⟩
      intro a ha
      injection ha with ha2
      have h2 := handleSmileState_act s (baseAction s) now a ha2
      rw [hb] at h2
      rw [h2]
      exact ⟨rfl, rfl⟩
    · constructor
      · rcases (handleGotchaState_fields s (baseAction s) now rec fin).1 with h2 | h2
        · exact h2.trans h
        · exact h2
      · intro a ha
        injection ha with ha2
        have h2 := handleGotchaState_act s (baseAction s) now rec fin a ha2
        rw [hb] at h2
        exact ⟨h2.1.1, h2.1.2⟩

theorem smRun_sessionId (s : SMState) (evs : List SMEvent) (h : s.sessionId = none) :
    (smRun s evs).1.sessionId = none ∧
      ∀ a ∈ outActions (smRun s evs).2, a.sessionId = none ∧ a.sessionTime = none := by
  induction evs generalizing s with
  | nil =>
      refine ⟨h, ?_⟩
      intro a ha
      simp [smRun] at ha
  | cons e es ih =>
      have hstep := smStep_sessionId s e h
      rw [smRun]
      refine ⟨(ih _ hstep.1).1, ?_⟩
      intro a ha
      rcases ho : (smStep s e).2 with b | r
      · rw [ho] at ha
        simp only [outActions_cons_pressed] at ha
        exact (ih _ hstep.1).2 a ha
      · rcases r with err | a0
        · rw [ho] at ha
          simp only [outActions_cons_error] at ha
          exact (ih _ hstep.1).2 a ha
        · rw [ho] at ha
          simp only [outActions_cons_ok, List.mem_cons] at ha
          rcases ha with ha | ha
          · rw [ha]; exact hstep.2 a0 (by rw [ho])
          · exact (ih _ hstep.1).2 a ha

theorem handleCountdownTick_triggerNumber (s : SMState) (a : SessionAction)
    (now : ℚ) (ha : a.countdownUpdate = none) :
    ∀ a' cu, (handleCountdownTick s a now).2 = .ok a' →
      a'.countdownUpdate = some cu → cu.triggerProp = true →
        some cu.number = s.propTriggerAt ∧ s.propTriggered = false := by
  unfold handleCountdownTick
  repeat' split
  all_goals intro a' cu h hcu htp
  all_goals try simp at h
  all_goals cases h
  all_goals try (rw [ha] at hcu; cases hcu)
  all_goals simp only [SessionAction.countdownUpdate] at hcu
  all_goals injection hcu with hcu2
  all_goals subst hcu2
  all_goals simpa using htp

theorem handleCountdownState_triggerNumber (s : SMState) (a : SessionAction)
    (now : ℚ) (d : Option (ℤ × ℤ)) (r : Bool) (ha : a.countdownUpdate = none) :
    ∀ a' cu, (handleCountdownState s a now d r).2 = .ok a' →
      a'.countdownUpdate = some cu → cu.triggerProp = true →
        some cu.number = s.propTriggerAt := by
  unfold handleCountdownState
  split
  · split
    · intro a' cu h hcu htp
      exact (handleCountdownTick_triggerNumber _ _ now (by simpa using ha) a' cu h hcu htp).1
    · intro a' cu h hcu htp
      exact (handleCountdownTick_triggerNumber _ _ now ha a' cu h hcu htp).1
  · intro a' cu h hcu htp
    exact (handleCountdownTick_triggerNumber _ _ now ha a' cu h hcu htp).1

theorem smStep_pta (s : SMState) (e : SMEvent) :
    (smStep s e).1.propTriggerAt = s.propTriggerAt := by
  rcases e with now | ⟨now, dims, rec, fin⟩
  · simp only [smStep]
    exact (startCountdown_fields s now).2
  · simp only [smStep, smUpdate]
    cases hp : s.phase
    · exact (idleTickState_fields s now).2.1
    · exact (handleCountdownState_fields s _ now dims rec).2
    · exact (handleSmileState_fields s _ now).2.1
    · exact (handleGotchaState_fields s _ now rec fin).2

theorem smStep_triggerNumber (s : SMState) (e : SMEvent) :
    ∀ a cu, (smStep s e).2 = .acted (.ok a) → a.countdownUpdate = some cu →
      cu.triggerProp = true → some cu.number = s.propTriggerAt := by
  rcases e with now | ⟨now, dims, rec, fin⟩
  · intro a cu h
    cases h
  · simp only [smStep, smUpdate]
    cases hp : s.phase
    · intro a cu h hcu htp
      injection h with h2
      injection h2 with h3
      rw [← h3, baseAction_countdownUpdate] at hcu
      cases hcu
    · intro a cu h hcu htp
      injection h with h2
      exact handleCountdownState_triggerNumber s (baseAction s) now dims rec
        (baseAction_countdownUpdate s) a cu h2 hcu htp
    · intro a cu h hcu htp
      injection h with h2
      have h3 := handleSmileState_act s (baseAction s) now a h2
      rw [h3] at hcu
      simp at hcu
    · intro a cu h hcu htp
      injection h with h2
      have h3 := handleGotchaState_act s (baseAction s) now rec fin a h2
      rw [h3.2.1, baseAction_countdownUpdate] at hcu
      cases hcu

theorem smRun_triggerNumber (s : SMState) (evs : List SMEvent) :
    ∀ a ∈ outActions (smRun s evs).2, ∀ cu, a.countdownUpdate = some cu →
      cu.triggerProp = true → some cu.number = s.propTriggerAt := by
  induction evs generalizing s with
  | nil =>
      intro a ha
      simp [smRun] at ha
  | cons e es ih =>
      intro a ha cu hcu htp
      rw [smRun] at ha
      rcases ho : (smStep s e).2 with b | r
      · rw [ho] at ha
        simp only [outActions_cons_pressed] at ha
        rw [← smStep_pta s e]
        exact ih _ a ha cu hcu htp
      · rcases r with err | a0
        · rw [ho] at ha
          simp only [outActions_cons_error] at ha
          rw [← smStep_pta s e]
          exact ih _ a ha cu hcu htp
        · rw [ho] at ha
          simp only [outActions_cons_ok, List.mem_cons] at ha
          rcases ha with ha | ha
          · subst ha
            exact smStep_triggerNumber s e a cu ho hcu htp
          · rw [← smStep_pta s e]
            exact ih _ a ha cu hcu htp

theorem actTrigger_base (s : SMState) : actTrigger (baseAction s) = false := by
  unfold actTrigger
  rw [baseAction_countdownUpdate]

theorem triggerCredit_zero (x : SMState) (h : x.phase ≠ .countdown) :
    triggerCredit x = 0 := by
  unfold triggerCredit
  simp [h]

theorem handleCountdownTick_credit_err (s : SMState) (a : SessionAction) (now : ℚ) :
    ∀ err, (handleCountdownTick s a now).2 = .error err →
      triggerCredit (handleCountdownTick s a now).1 ≤ triggerCredit s := by
  unfold handleCountdownTick
  repeat' split
  all_goals intro err h
  all_goals try simp at h
  exact le_refl _

theorem handleCountdownTick_credit_ok (s : SMState) (a : SessionAction) (now : ℚ)
    (hp : s.phase = .countdown) (ha : actTrigger a = false) :
    ∀ a', (handleCountdownTick s a now).2 = .ok a' →
      (if actTrigger a' then 1 else 0) +
        triggerCredit (handleCountdownTick s a now).1 ≤ triggerCredit s := by
  unfold handleCountdownTick countdownFinishState
  repeat' split
  all_goals intro a' h
  all_goals try simp at h
  all_goals cases h
  all_goals simp_all [triggerCredit, actTrigger]
  all_goals omega

theorem handleCountdownState_credit_ok (s : SMState) (a : SessionAction) (now : ℚ)
    (d : Option (ℤ × ℤ)) (r : Bool)
    (hp : s.phase = .countdown) (ha : actTrigger a = false) :
    ∀ a', (handleCountdownState s a now d r).2 = .ok a' →
      (if actTrigger a' then 1 else 0) +
        triggerCredit (handleCountdownState s a now d r).1 ≤ triggerCredit s := by
  unfold handleCountdownState
  split
  · split
    · intro a' h
      have h2 := handleCountdownTick_credit_ok _ _ now (by simpa using hp)
        (by simpa [actTrigger] using ha) a' h
      calc (if actTrigger a' then 1 else 0) + triggerCredit (handleCountdownTick _ _ now).1
          ≤ triggerCredit _ := h2
        _ ≤ triggerCredit s := by unfold triggerCredit; simp
    · intro a' h
      have h2 := handleCountdownTick_credit_ok _ _ now (by simpa using hp) ha a' h
      calc (if actTrigger a' then 1 else 0) + triggerCredit (handleCountdownTick _ _ now).1
          ≤ triggerCredit _ := h2
        _ ≤ triggerCredit s := by unfold triggerCredit; simp
  · exact handleCountdownTick_credit_ok s a now hp ha

theorem handleCountdownState_credit_err (s : SMState) (a : SessionAction) (now : ℚ)
    (d : Option (ℤ × ℤ)) (r : Bool) :
    ∀ err, (handleCountdownState s a now d r).2 = .error err →
      triggerCredit (handleCountdownState s a now d r).1 ≤ triggerCredit s := by
  unfold handleCountdownState
  split
  · split
    · intro err h
      have h2 := handleCountdownTick_credit_err _ _ now err h
      calc triggerCredit (handleCountdownTick _ _ now).1
          ≤ triggerCredit _ := h2
        _ ≤ triggerCredit s := by unfold triggerCredit; simp
    · intro err h
      have h2 := handleCountdownTick_credit_err _ _ now err h
      calc triggerCredit (handleCountdownTick _ _ now).1
          ≤ triggerCredit _ := h2
        _ ≤ triggerCredit s := by unfold triggerCredit; simp
  · exact handleCountdownTick_credit_err s a now

theorem smStep_credit (s : SMState) (e : SMEvent) :
    triggersOfOut (smStep s e).2 + triggerCredit (smStep s e).1 ≤
      evPressCount e + triggerCredit s := by
  rcases e with now | ⟨now, dims, rec, fin⟩
  · simp only [smStep, triggersOfOut, evPressCount]
    unfold startCountdown
    by_cases hph : s.phase = .idle
    · rw [triggerCredit_zero s (by rw [hph]; intro hc; cases hc)]
      simp [hph, resetSessionTracking, triggerCredit]
    · simp [hph]
  · simp only [smStep, smUpdate, evPressCount]
    cases hp : s.phase
    · simp only [triggersOfOut, actTrigger_base]
      rw [triggerCredit_zero s (by rw [hp]; intro hc; cases hc),
        triggerCredit_zero (idleTickState s now)
          (by rw [(idleTickState_phase s now), hp]; intro hc; cases hc)]
      simp
    · rcases hr : (handleCountdownState s (baseAction s) now dims rec).2 with err | a'
      · have h2 := handleCountdownState_credit_err s (baseAction s) now dims rec err hr
        simpa [triggersOfOut, hr] using h2
      · have h2 := handleCountdownState_credit_ok s (baseAction s) now dims rec hp
          (actTrigger_base s) a' hr
        simpa [triggersOfOut, hr] using h2
    · have hcz2 : triggerCredit (handleSmileState s (baseAction s) now).1 = 0 := by
        rcases handleSmileState_phase s (baseAction s) now with h | h
        · exact triggerCredit_zero _ (by rw [h, hp]; simp)
        · exact triggerCredit_zero _ (by rw [h]; simp)
      have hto : triggersOfOut (.acted (handleSmileState s (baseAction s) now).2) = 0 := by
        rcases hr : (handleSmileState s (baseAction s) now).2 with err | a'
        · rfl
        · have h3 := handleSmileState_act s (baseAction s) now a' hr
          simp [triggersOfOut, h3, actTrigger]
      calc triggersOfOut (SMOut.acted (handleSmileState s (baseAction s) now).2)
            + triggerCredit (handleSmileState s (baseAction s) now).1 = 0 := by
              rw [hcz2, hto]
        _ ≤ 0 + triggerCredit s := by omega
    · have hcz2 : triggerCredit (handleGotchaState s (baseAction s) now rec fin).1 = 0 := by
        rcases handleGotchaState_phase s (baseAction s) now rec fin with h | h
        · exact triggerCredit_zero _ (by rw [h, hp]; simp)
        · exact triggerCredit_zero _ (by rw [h]; simp)
      have hto : triggersOfOut (.acted (handleGotchaState s (baseAction s) now rec fin).2) = 0 := by
        rcases hr : (handleGotchaState s (baseAction s) now rec fin).2 with err | a'
        · rfl
        · have h3 := handleGotchaState_act s (baseAction s) now rec fin a' hr
          have h4 : actTrigger a' = false := by
            unfold actTrigger
            rw [h3.2.1, baseAction_countdownUpdate]
          simp [triggersOfOut, h4]
      calc triggersOfOut (SMOut.acted (handleGotchaState s (baseAction s) now rec fin).2)
            + triggerCredit (handleGotchaState s (baseAction s) now rec fin).1 = 0 := by
              rw [hcz2, hto]
        _ ≤ 0 + triggerCredit s := by omega

theorem triggerCount_cons (o : SMOut) (l : List SMOut) :
    triggerCount (o :: l) = triggersOfOut o + triggerCount l := by
  rcases o with b | r
  · simp [triggerCount, triggersOfOut]
  · rcases r with err | a
    · simp [triggerCount, triggersOfOut]
    · simp only [triggerCount, triggersOfOut, outActions_cons_ok, List.filter_cons]
      cases h : actTrigger a <;> simp [h] <;> omega

theorem pressCount_cons (e : SMEvent) (es : List SMEvent) :
    pressCount (e :: es) = evPressCount e + pressCount es := by
  rcases e with now | ⟨now, dims, rec, fin⟩ <;> simp [pressCount, evPressCount] <;> omega

theorem smRun_credit (s : SMState) (evs : List SMEvent) :
    triggerCount (smRun s evs).2 + triggerCredit (smRun s evs).1 ≤
      pressCount evs + triggerCredit s := by
  induction evs generalizing s with
  | nil => simp [smRun, triggerCount, outActions]
  | cons e es ih =>
      have hfst : (smRun s (e :: es)).1 = (smRun (smStep s e).1 es).1 := rfl
      have hsnd : (smRun s (e :: es)).2 = (smStep s e).2 :: (smRun (smStep s e).1 es).2 := rfl
      rw [hfst, hsnd, triggerCount_cons, pressCount_cons]
      have h1 := smStep_credit s e
      have h2 := ih (smStep s e).1
      omega

theorem handleCountdownTick_cur (s : SMState) (a : SessionAction) (now : ℚ)
    (hcur : s.currentCountdownNumber ≠ none) :
    (handleCountdownTick s a now).1.currentCountdownNumber ≠ none ∨
      (handleCountdownTick s a now).1.phase = .smile := by
  unfold handleCountdownTick countdownFinishState
  repeat' split
  all_goals first
    | exact Or.inl hcur
    | exact Or.inr rfl
    | exact Or.inl (by simp)

theorem handleCountdownState_cur (s : SMState) (a : SessionAction) (now : ℚ)
    (d : Option (ℤ × ℤ)) (r : Bool) :
    (handleCountdownState s a now d r).1.currentCountdownNumber ≠ none ∨
      (handleCountdownState s a now d r).1.phase = .smile := by
  unfold handleCountdownState
  split
  · split
    · exact handleCountdownTick_cur _ _ now (by simp)
    · exact handleCountdownTick_cur _ _ now (by simp)
  · next n heq => exact handleCountdownTick_cur _ _ now (by rw [heq]; simp)

theorem handleSmileState_cur (s : SMState) (a : SessionAction) (now : ℚ) :
    (handleSmileState s a now).1.currentCountdownNumber = s.currentCountdownNumber := by
  unfold handleSmileState
  repeat' split
  all_goals simp

theorem handleCountdownState_startVideo_first (s : SMState) (a : SessionAction)
    (now : ℚ) (d : Option (ℤ × ℤ)) (r : Bool)
    (hcur : s.currentCountdownNumber = none) (hfirst : d = none ∨ r = true) :
    ∀ a', (handleCountdownState s a now d r).2 = .ok a' →
      a'.startVideo = a.startVideo := by
  unfold handleCountdownState
  rw [hcur]
  have hco : ¬(¬r = true ∧ d.isSome = true) := by
    rcases hfirst with h | h <;> simp [h]
  rw [if_neg hco]
  intro a' h
  exact (handleCountdownTick_act _ _ _ a' h).2.2

theorem smStep_noStart (s : SMState) (e : SMEvent) (h : noStartInv s) :
    (∀ a, (smStep s e).2 = .acted (.ok a) → a.startVideo = false)
      ∧ noStartInv (smStep s e).1 := by
  rcases e with now | ⟨now, dims, rec, fin⟩
  · simp only [smStep]
    rw [startCountdown_notIdle s now h.1]
    refine ⟨?_, h⟩
    intro a ha
    cases ha
  · simp only [smStep, smUpdate]
    cases hp : s.phase
    · exact absurd hp h.1
    · constructor
      · intro a ha
        injection ha with ha2
        rw [handleCountdownState_startVideo s (baseAction s) now dims rec
            (h.2.1 hp) a ha2]
        exact baseAction_startVideo s
      · refine ⟨?_, ?_, ?_⟩
        · rcases handleCountdownState_phase s (baseAction s) now dims rec with h2 | h2 <;>
            rw [h2] <;> try rw [hp]
          all_goals intro hc; cases hc
        · intro hc
          rcases handleCountdownState_cur s (baseAction s) now dims rec with h2 | h2
          · exact h2
          · rw [h2] at hc; cases hc
        · unfold gotchaUnset
          rw [handleCountdownState_gst]
          exact h.2.2
    · constructor
      · intro a ha
        injection ha with ha2
        rw [handleSmileState_act s (baseAction s) now a ha2]
        exact baseAction_startVideo s
      · refine ⟨?_, ?_, ?_⟩
        · rcases handleSmileState_phase s (baseAction s) now with h2 | h2 <;>
            rw [h2] <;> try rw [hp]
          all_goals intro hc; cases hc
        · intro hc
          rcases handleSmileState_phase s (baseAction s) now with h2 | h2 <;>
            rw [h2] at hc
          · rw [hp] at hc; cases hc
          · cases hc
        · unfold gotchaUnset
          rw [handleSmileState_gst]
          exact h.2.2
    · rcases handleGotchaState_unset s (baseAction s) now rec fin h.2.2 with h2 | h2 <;>
        rw [h2]
      · refine ⟨?_, h⟩
        intro a ha
        injection ha with ha2
        injection ha2 with ha3
        rw [← ha3]
        exact baseAction_startVideo s
      · refine ⟨?_, h⟩
        intro a ha
        injection ha with ha2
        cases ha2

theorem smRun_noStart (s : SMState) (evs : List SMEvent) (h : noStartInv s) :
    ∀ a ∈ outActions (smRun s evs).2, a.startVideo = false := by
  induction evs generalizing s with
  | nil =>
      intro a ha
      simp [smRun] at ha
  | cons e es ih =>
      intro a ha
      have hstep := smStep_noStart s e h
      rw [smRun] at ha
      rcases ho : (smStep s e).2 with b | r
      · rw [ho] at ha
        simp only [outActions_cons_pressed] at ha
        exact ih _ hstep.2 a ha
      · rcases r with err | a0
        · rw [ho] at ha
          simp only [outActions_cons_error] at ha
          exact ih _ hstep.2 a ha
        · rw [ho] at ha
          simp only [outActions_cons_ok, List.mem_cons] at ha
          rcases ha with ha | ha
          · subst ha
            exact hstep.1 a ho
          · exact ih _ hstep.2 a ha


/-! ## Claim theorems for the session orchestrator

`Rat.add`/`Rat.sub`/`Rat.mul`/`Rat.inv` are `@[irreducible]` in the
library; they are made semireducible locally so that `decide` can
evaluate the concrete traces (the kernel never depended on the marking). -/

section ClaimTheorems
attribute [local semireducible] Rat.add Rat.sub Rat.mul Rat.inv Rat.ofScientific

/-- **C1** (confirmed): starting from the initial Idle state, any
sequence of `start_countdown()` and `update(now, ...)` calls changes the
phase only along the cycle Idle → Countdown → Smile → Gotcha → Idle: in
the phase trace of every driver sequence, each consecutive pair of
phases is either equal or one edge of the cycle. -/
theorem c1_phase_cycle (cfg : SMConfig) (evs : List SMEvent) :
    (initSM cfg).phase = .idle ∧
      List.Chain' phaseStepOk (phaseTrace (initSM cfg) evs) :=
  ⟨rfl, chain_phaseTrace _ evs⟩

/-- **C2** (code_bug): a session driven only by `start_countdown()` and
`update()` that reaches the Gotcha phase never completes.  The canonical
session (`COUNTDOWN_SECONDS = 3`, press at `t = 0`, ticks through
`t = 100`, video reported finalized) reaches Gotcha, yet no
`session_complete` is ever emitted — and from the Gotcha state every
further driver sequence leaves the state byte-identical and still never
emits `session_complete`: `_handle_gotcha_state` returns at its first
guard (or raises `AttributeError`) because `gotcha_start_time` is never
assigned on the Smile → Gotcha transition. -/
theorem c2_gotcha_session_never_completes :
    gotchaStateEx.phase = .gotcha
    ∧ Phase.gotcha ∈ phaseTrace (initSM cfgEx) evsEx
    ∧ anySessionComplete (smRun (initSM cfgEx) evsEx).2 = false
    ∧ ∀ evs : List SMEvent,
        (smRun gotchaStateEx evs).1 = gotchaStateEx
        ∧ anySessionComplete (smRun gotchaStateEx evs).2 = false :=
  ⟨by decide, by decide, by decide,
    fun evs => smRun_gotcha_stuck gotchaStateEx (by decide) (by decide) evs⟩

/-- **C3** (code_bug): with `countdown_length = 3` and ticks every half
second, the countdown displays 3, 3, 2, 2, 1, 1 but beeps only for 2
and 1 — the beep for 3 is skipped, because the initialization tick sets
`current_countdown_number = 3` and then finds `expected_number`
unchanged (contradicting the handler's own docstring
"3-beep → 2-beep → 1-beep"). Each of 2 and 1 beeps exactly once: no
repeat within the same second. -/
theorem c3_beep_for_three_never_fires :
    shownNumbers (smRun (initSM cfgEx) evsEx).2 = [3, 3, 2, 2, 1, 1]
    ∧ beepNumbers (smRun (initSM cfgEx) evsEx).2 = [2, 1] :=
  ⟨by decide, by decide⟩

/-- **C5** (code_bug): `start_countdown()` on a fresh manager returns
`True`, yet no session id or start time is ever created
(`SessionManager.start_countdown` never calls
`PhotoBoothState.start_countdown`), so for every configuration and every
driver sequence, every returned command carries
`session_id = None` and `session_time = None`. -/
theorem c5_no_session_id_created :
    (startCountdown (initSM cfgEx) 0).2 = true
    ∧ ∀ (cfg : SMConfig) (evs : List SMEvent),
        ((outActions (smRun (initSM cfg) evs).2).all
          fun a => a.sessionId.isNone && a.sessionTime.isNone) = true := by
  refine ⟨by decide, ?_⟩
  intro cfg evs
  rw [List.all_eq_true]
  intro a ha
  have h2 := (smRun_sessionId (initSM cfg) evs rfl).2 a ha
  simp [h2.1, h2.2]

/-- **C4 counterexample**: a session with `prop_trigger_at_countdown = 1`
and `countdown_length = 1`, ticked every 0.3 s: the displayed countdown
number is 1 from the first call on, the countdown completes (phase
reaches Smile), yet `trigger_prop` is never emitted — refuting "the
trigger_hardware command is emitted exactly once during the session, on
the update() call at which the displayed countdown number becomes 1"
for this session. -/
theorem c4_trigger_never_fires_when_initial_number_is_one :
    cfgC4.key1 = some 1
    ∧ shownNumbers (smRun (initSM cfgC4) evsC4).2 = [1, 1, 1, 1]
    ∧ triggerCount (smRun (initSM cfgC4) evsC4).2 = 0
    ∧ (smRun (initSM cfgC4) evsC4).1.phase = .smile :=
  ⟨by decide, by decide, by decide, by decide⟩

/-- **C4 amended**: for every session manager whose
`prop_trigger_at_countdown` lookup produced 1, over every driver
sequence (a) every emitted `trigger_prop` is attached to displayed
number 1 — never any other number — and (b) the trigger is emitted at
most once per `start_countdown()` press; moreover (c) in the canonical
3-second session the trigger is emitted exactly once, at the call whose
displayed number becomes 1 (it is skipped only when 1 is the initial
number, as the counterexample shows). -/
theorem c4_trigger_amended (cfg : SMConfig) (h1 : cfg.key1 = some 1)
    (evs : List SMEvent) :
    (∀ a ∈ outActions (smRun (initSM cfg) evs).2, ∀ cu,
        a.countdownUpdate = some cu → cu.triggerProp = true → cu.number = 1)
    ∧ triggerCount (smRun (initSM cfg) evs).2 ≤ pressCount evs
    ∧ triggerNumbers (smRun (initSM cfgEx) evsEx).2 = [1] := by
  refine ⟨?_, ?_, by decide⟩
  · intro a ha cu hcu htp
    have h2 := smRun_triggerNumber (initSM cfg) evs a ha cu hcu htp
    have h3 : (initSM cfg).propTriggerAt = some 1 := h1
    rw [h3] at h2
    simpa using h2
  · have h2 := smRun_credit (initSM cfg) evs
    have h3 : triggerCredit (initSM cfg) = 0 :=
      triggerCredit_zero _ (by intro hc; cases hc)
    omega

/-- Witness for **C4 amended** at the canonical configuration and
driver sequence. -/
theorem c4_trigger_amended_witness :
    cfgEx.key1 = some 1
    ∧ triggerCount (smRun (initSM cfgEx) evsEx).2 ≤ pressCount evsEx :=
  ⟨by decide, (c4_trigger_amended cfgEx (by decide) evsEx).2.1⟩

/-- **C10** (confirmed): if on the first `update()` tick of the
Countdown phase `frame_dimensions` is `None` or a video is already
recording, `start_video` is not requested on that tick — and never on
any later call of the same session either (the session cannot return to
idle, and the initialization branch that is the only source of
`start_video` never runs again). -/
theorem c10_no_start_video_retry (s : SMState) (now : ℚ)
    (dims : Option (ℤ × ℤ)) (rec fin : Bool)
    (hphase : s.phase = .countdown) (hcur : s.currentCountdownNumber = none)
    (hg : gotchaUnset s) (hfirst : dims = none ∨ rec = true) :
    (∀ a, (smStep s (.tick now dims rec fin)).2 = .acted (.ok a) →
      a.startVideo = false)
    ∧ ∀ evs, ∀ a ∈ outActions (smRun (smStep s (.tick now dims rec fin)).1 evs).2,
        a.startVideo = false := by
  have hsnd : (smStep s (.tick now dims rec fin)).2 =
      .acted (handleCountdownState s (baseAction s) now dims rec).2 := by
    simp only [smStep, smUpdate, hphase]
  have hfst : (smStep s (.tick now dims rec fin)).1 =
      (handleCountdownState s (baseAction s) now dims rec).1 := by
    simp only [smStep, smUpdate, hphase]
  constructor
  · intro a ha
    rw [hsnd] at ha
    injection ha with ha2
    rw [handleCountdownState_startVideo_first s (baseAction s) now dims rec hcur
      hfirst a ha2]
    exact baseAction_startVideo s
  · intro evs
    apply smRun_noStart
    rw [hfst]
    refine ⟨?_, ?_, ?_⟩
    · rcases handleCountdownState_phase s (baseAction s) now dims rec with h2 | h2 <;>
        rw [h2]
      · rw [hphase]; intro hc; cases hc
      · intro hc; cases hc
    · intro hc
      rcases handleCountdownState_cur s (baseAction s) now dims rec with h2 | h2
      · exact h2
      · rw [h2] at hc; cases hc
    · show gotchaUnset _
      unfold gotchaUnset
      rw [handleCountdownState_gst]
      exact hg

/-- Witness for **C10**: the state right after the button press on a
fresh manager, ticked with `frame_dimensions = None`; the returned
command requests no video start. -/
theorem c10_no_start_video_retry_witness :
    postPressState.phase = .countdown
    ∧ postPressState.currentCountdownNumber = none
    ∧ gotchaUnset postPressState
    ∧ ((none : Option (ℤ × ℤ)) = none ∨ false = true)
    ∧ firstActNoDims.startVideo = false :=
  ⟨by decide, by decide, by decide, Or.inl rfl,
    (c10_no_start_video_retry postPressState 0 none false false (by decide)
      (by decide) (by decide) (Or.inl rfl)).1 firstActNoDims (by decide)⟩

end ClaimTheorems

/-! ## File relocation lemmas -/

theorem migrateDir_nomatch (pfx : String) (fs : List FMFile)
    (h : ∀ f ∈ fs, ¬pyStartsWith f.name pfx = true) :
    migrateDir pfx fs = (fs, [], []) := by
  induction fs with
  | nil => rfl
  | cons f fs ih =>
      rw [migrateDir, ih (fun g hg => h g (List.mem_cons_of_mem f hg))]
      rw [if_neg (h f (List.mem_cons_self f fs))]

theorem migrateDir_failed_nil (pfx : String) (fs : List FMFile)
    (h : ∀ f ∈ fs, pyStartsWith f.name pfx = true → f.moveOk = true ∨ f.copyOk = true) :
    (migrateDir pfx fs).2.2 = [] := by
  induction fs with
  | nil => rfl
  | cons f fs ih =>
      have ih2 := ih (fun g hg => h g (List.mem_cons_of_mem f hg))
      rw [migrateDir]
      by_cases hm : pyStartsWith f.name pfx = true
      · rw [if_pos hm]
        have hok : f.moveOk = true ∨ f.copyOk = true := h f (List.mem_cons_self f fs) hm
        rw [if_pos (by simpa using hok)]
        exact ih2
      · rw [if_neg hm]
        exact ih2

theorem migrateDir_moved_len (pfx : String) (fs : List FMFile)
    (h : ∀ f ∈ fs, pyStartsWith f.name pfx = true → f.moveOk = true ∨ f.copyOk = true) :
    (migrateDir pfx fs).2.1.length =
      (fs.filter fun f => pyStartsWith f.name pfx).length := by
  induction fs with
  | nil => rfl
  | cons f fs ih =>
      have ih2 := ih (fun g hg => h g (List.mem_cons_of_mem f hg))
      rw [migrateDir, List.filter_cons]
      by_cases hm : pyStartsWith f.name pfx = true
      · rw [if_pos hm]
        have hok : f.moveOk = true ∨ f.copyOk = true := h f (List.mem_cons_self f fs) hm
        rw [if_pos (by simpa using hok)]
        simp [hm, ih2]
      · rw [if_neg hm]
        simp [hm, ih2]

theorem migrateDir_remaining_nomatch (pfx : String) (fs : List FMFile)
    (h : ∀ f ∈ fs, pyStartsWith f.name pfx = true → f.moveOk = true ∨ f.copyOk = true) :
    ∀ f ∈ (migrateDir pfx fs).1, ¬pyStartsWith f.name pfx = true := by
  induction fs with
  | nil => intro f hf; cases hf
  | cons f fs ih =>
      have ih2 := ih (fun g hg => h g (List.mem_cons_of_mem f hg))
      rw [migrateDir]
      by_cases hm : pyStartsWith f.name pfx = true
      · rw [if_pos hm]
        have hok : f.moveOk = true ∨ f.copyOk = true := h f (List.mem_cons_self f fs) hm
        rw [if_pos (by simpa using hok)]
        exact ih2
      · rw [if_neg hm]
        intro g hg
        rcases List.mem_cons.mp hg with hg | hg
        · rw [hg]; exact hm
        · exact ih2 g hg

theorem migrateDir_failed_nonempty (pfx : String) (fs : List FMFile)
    (h : ∃ f ∈ fs, pyStartsWith f.name pfx = true ∧ f.moveOk = false ∧ f.copyOk = false) :
    (migrateDir pfx fs).2.2 ≠ [] := by
  induction fs with
  | nil => rcases h with ⟨f, hf, _⟩; cases hf
  | cons f fs ih =>
      rw [migrateDir]
      rcases h with ⟨g, hg, hgm, hgmv, hgcp⟩
      rcases List.mem_cons.mp hg with hg | hg
      · subst hg
        rw [if_pos hgm, if_neg (by simp [hgmv, hgcp])]
        simp
      · by_cases hm : pyStartsWith f.name pfx = true
        · rw [if_pos hm]
          split
          · exact ih ⟨g, hg, hgm, hgmv, hgcp⟩
          · simp
        · rw [if_neg hm]
          exact ih ⟨g, hg, hgm, hgmv, hgcp⟩

theorem dirChecks_ok (d : FMDirs) (hd : dirsOk d) : dirChecks d = .ok d := by
  obtain ⟨h1, h2, h3, h4⟩ := hd
  unfold dirChecks
  rw [if_neg (by simp [h1]), if_neg (by simp [h2]), if_neg (by simp [h3]),
    if_neg (by simp [h4])]
  cases d
  simp_all

example : pyStartsWith "abc_def" "abc" = true := by decide
example : dirsOk fmEx.dirs := by decide
example : (moveSessionFilesToNetwork fmEx "2025-10-31_19-00-00" "S123").2 =
    .error (.moveFailed 1) := by decide
example : ∃ f ∈ fmEx.localPhotos,
    pyStartsWith f.name "2025-10-31_19-00-00_S123_" = true ∧ f.moveOk = true := by decide

theorem move_ok_of_all_ok (st : FMState) (t id : String) (hd : dirsOk st.dirs)
    (hallp : ∀ f ∈ st.localPhotos,
      pyStartsWith f.name (t ++ "_" ++ id ++ "_") = true → f.moveOk = true ∨ f.copyOk = true)
    (hallv : ∀ f ∈ st.localVideos,
      pyStartsWith f.name (t ++ "_" ++ id ++ "_") = true → f.moveOk = true ∨ f.copyOk = true) :
    (moveSessionFilesToNetwork st t id).2 =
      .ok ((st.localPhotos.filter fun f => pyStartsWith f.name (t ++ "_" ++ id ++ "_")).length
        + (st.localVideos.filter fun f => pyStartsWith f.name (t ++ "_" ++ id ++ "_")).length)
    ∧ dirsOk (moveSessionFilesToNetwork st t id).1.dirs
    ∧ (∀ f ∈ (moveSessionFilesToNetwork st t id).1.localPhotos,
        ¬pyStartsWith f.name (t ++ "_" ++ id ++ "_") = true)
    ∧ (∀ f ∈ (moveSessionFilesToNetwork st t id).1.localVideos,
        ¬pyStartsWith f.name (t ++ "_" ++ id ++ "_") = true) := by
  have hfp := migrateDir_failed_nil (t ++ "_" ++ id ++ "_") st.localPhotos hallp
  have hfv := migrateDir_failed_nil (t ++ "_" ++ id ++ "_") st.localVideos hallv
  simp only [moveSessionFilesToNetwork, dirChecks_ok st.dirs hd]
  rw [if_pos (by rw [hfp, hfv]; rfl)]
  refine ⟨?_, hd, ?_, ?_⟩
  · simp only [List.length_append,
      migrateDir_moved_len (t ++ "_" ++ id ++ "_") st.localPhotos hallp,
      migrateDir_moved_len (t ++ "_" ++ id ++ "_") st.localVideos hallv]
  · exact migrateDir_remaining_nomatch _ _ hallp
  · exact migrateDir_remaining_nomatch _ _ hallv

theorem move_nofiles (st : FMState) (t id : String) (hd : dirsOk st.dirs)
    (hp : ∀ f ∈ st.localPhotos, ¬pyStartsWith f.name (t ++ "_" ++ id ++ "_") = true)
    (hv : ∀ f ∈ st.localVideos, ¬pyStartsWith f.name (t ++ "_" ++ id ++ "_") = true) :
    moveSessionFilesToNetwork st t id = (st, .ok 0) := by
  simp only [moveSessionFilesToNetwork, dirChecks_ok st.dirs hd]
  rw [migrateDir_nomatch _ _ hp, migrateDir_nomatch _ _ hv]
  simp

section FileClaims
attribute [local semireducible] Rat.add Rat.sub Rat.mul Rat.inv

/-- **C6 counterexample**: destination directories exist and are
writable, the photo directory holds two files with the session token —
the first moves successfully (it ends up in the network directory), the
second fails both `shutil.move` and the copy-then-delete fallback — yet
`move_session_files_to_network` raises instead of returning the count
of moved files. -/
theorem c6_raises_despite_partial_success :
    dirsOk fmEx.dirs
    ∧ (∃ f ∈ fmEx.localPhotos,
        pyStartsWith f.name "2025-10-31_19-00-00_S123_" = true ∧ f.moveOk = true)
    ∧ (∃ f ∈ fmEx.localPhotos,
        pyStartsWith f.name "2025-10-31_19-00-00_S123_" = true
          ∧ f.moveOk = false ∧ f.copyOk = false)
    ∧ (moveSessionFilesToNetwork fmEx "2025-10-31_19-00-00" "S123").1.netPhotos
        = ["2025-10-31_19-00-00_S123_photo_1.jpg"]
    ∧ (moveSessionFilesToNetwork fmEx "2025-10-31_19-00-00" "S123").2
        = .error (.moveFailed 1) :=
  ⟨by decide, by decide, by decide, by decide, by decide⟩

/-- **C6 amended**: with both destination directories existing and
writable, `move_session_files_to_network` returns without raising — and
then the count equals the number of files carrying the session token —
exactly when *every* token-matching file survives `move` or the
copy-then-delete fallback; if even one such file fails both, the call
raises (with a positive failed-file count), regardless of how many
other files were moved. -/
theorem c6_relocate_raise_behavior (st : FMState) (t id : String)
    (hd : dirsOk st.dirs) :
    ((∀ f ∈ st.localPhotos ++ st.localVideos,
        pyStartsWith f.name (t ++ "_" ++ id ++ "_") = true →
          f.moveOk = true ∨ f.copyOk = true) →
      (moveSessionFilesToNetwork st t id).2 =
        .ok ((st.localPhotos.filter fun f =>
              pyStartsWith f.name (t ++ "_" ++ id ++ "_")).length
          + (st.localVideos.filter fun f =>
              pyStartsWith f.name (t ++ "_" ++ id ++ "_")).length))
    ∧ ((∃ f ∈ st.localPhotos ++ st.localVideos,
        pyStartsWith f.name (t ++ "_" ++ id ++ "_") = true
          ∧ f.moveOk = false ∧ f.copyOk = false) →
      ∃ n, 0 < n ∧
        (moveSessionFilesToNetwork st t id).2 = .error (.moveFailed n)) := by
  constructor
  · intro hall
    exact (move_ok_of_all_ok st t id hd
      (fun f hf => hall f (List.mem_append_left _ hf))
      (fun f hf => hall f (List.mem_append_right _ hf))).1
  · intro ⟨f, hf, hfm, hmv, hcp⟩
    have hne : ((migrateDir (t ++ "_" ++ id ++ "_") st.localPhotos).2.2
        ++ (migrateDir (t ++ "_" ++ id ++ "_") st.localVideos).2.2) ≠ [] := by
      rcases List.mem_append.mp hf with hf | hf
      · have h2 := migrateDir_failed_nonempty (t ++ "_" ++ id ++ "_") st.localPhotos
          ⟨f, hf, hfm, hmv, hcp⟩
        intro hc
        exact h2 (List.append_eq_nil.mp hc).1
      · have h2 := migrateDir_failed_nonempty (t ++ "_" ++ id ++ "_") st.localVideos
          ⟨f, hf, hfm, hmv, hcp⟩
        intro hc
        exact h2 (List.append_eq_nil.mp hc).2
    refine ⟨((migrateDir (t ++ "_" ++ id ++ "_") st.localPhotos).2.2
        ++ (migrateDir (t ++ "_" ++ id ++ "_") st.localVideos).2.2).length,
      List.length_pos.mpr hne, ?_⟩
    simp only [moveSessionFilesToNetwork, dirChecks_ok st.dirs hd]
    rw [if_neg hne]

/-- Witness for **C6 amended** on the two-file counterexample session. -/
theorem c6_relocate_raise_behavior_witness :
    dirsOk fmEx.dirs
    ∧ (∃ f ∈ fmEx.localPhotos ++ fmEx.localVideos,
        pyStartsWith f.name ("2025-10-31_19-00-00" ++ "_" ++ "S123" ++ "_") = true
          ∧ f.moveOk = false ∧ f.copyOk = false)
    ∧ ∃ n, 0 < n ∧
        (moveSessionFilesToNetwork fmEx "2025-10-31_19-00-00" "S123").2 =
          .error (.moveFailed n) :=
  ⟨by decide, by decide,
    (c6_relocate_raise_behavior fmEx "2025-10-31_19-00-00" "S123" (by decide)).2
      (by decide)⟩

/-- **C7** (confirmed): relocation is idempotent — for a session whose
token-matching files all relocate successfully on the first call (and
with destination directories existing and writable), a second call with
the same session time and id moves nothing: it returns 0 and leaves the
filesystem state unchanged. -/
theorem c7_relocation_idempotent (st : FMState) (t id : String)
    (hd : dirsOk st.dirs)
    (hall : ∀ f ∈ st.localPhotos ++ st.localVideos,
      pyStartsWith f.name (t ++ "_" ++ id ++ "_") = true →
        f.moveOk = true ∨ f.copyOk = true) :
    moveSessionFilesToNetwork (moveSessionFilesToNetwork st t id).1 t id
      = ((moveSessionFilesToNetwork st t id).1, .ok 0) := by
  obtain ⟨-, hd1, hp1, hv1⟩ := move_ok_of_all_ok st t id hd
    (fun f hf => hall f (List.mem_append_left _ hf))
    (fun f hf => hall f (List.mem_append_right _ hf))
  exact move_nofiles _ t id hd1 hp1 hv1

/-- Witness for **C7** on a fully relocatable three-file session. -/
theorem c7_relocation_idempotent_witness :
    dirsOk fmOkEx.dirs
    ∧ (∀ f ∈ fmOkEx.localPhotos ++ fmOkEx.localVideos,
        pyStartsWith f.name ("2025-10-31_19-00-00" ++ "_" ++ "S123" ++ "_") = true →
          f.moveOk = true ∨ f.copyOk = true)
    ∧ moveSessionFilesToNetwork
        (moveSessionFilesToNetwork fmOkEx "2025-10-31_19-00-00" "S123").1
        "2025-10-31_19-00-00" "S123"
      = ((moveSessionFilesToNetwork fmOkEx "2025-10-31_19-00-00" "S123").1, .ok 0) :=
  ⟨by decide, by decide,
    c7_relocation_idempotent fmOkEx "2025-10-31_19-00-00" "S123" (by decide) (by decide)⟩

end FileClaims

section RtspClaims
attribute [local semireducible] Rat.add Rat.sub Rat.mul Rat.inv

/-- **C8 counterexample**: with the default settings
(`RTSP_CHECK_INTERVAL = 5`, `RTSP_MAX_RETRIES = 6`) and five failures
already accumulated, a due health check that finds the stream dead and
cannot reconnect does *not* leave the counter incremented to 6: the
code zeroes it (and defers the next check) in the same pass — refuting
"the retry counter increments by one on every health check that finds
the stream not alive and fails to reconnect" as stated. -/
theorem c8_counter_resets_at_max_not_increments :
    rtspCfgEx.maxRetries = 6
    ∧ rtspStEx.retries = 5
    ∧ (5 : ℚ) - rtspStEx.lastCheck ≥ rtspCfgEx.checkInterval
    ∧ rtspStEx.managerPresent = false
    ∧ rtspObsFail.candidateFound = false
    ∧ (rtspStep rtspCfgEx rtspStEx 5 rtspObsFail).retries = 0
    ∧ (rtspStep rtspCfgEx rtspStEx 5 rtspObsFail).lastCheck = 25 :=
  ⟨rfl, rfl, by decide, rfl, rfl, by decide, by decide⟩

/-- **C8 amended**: on a due health check that finds the stream not
alive, (a) if the reconnect fails and the incremented counter is still
below `max_retries`, the counter ends at `retries + 1` with the next
check due after the normal interval; (b) if the reconnect succeeds the
counter resets to 0 and the status is Online; (c) if the reconnect
fails and the increment reaches `max_retries`, the counter resets to 0
and `last_check` is pushed four intervals into the future, so no check
runs before `now + 5 · interval` — later than the normal interval. -/
theorem c8_retry_counter_amended (cfg : RtspCfg) (s : RtspState) (now : ℚ)
    (obs : RtspObs) (hdue : now - s.lastCheck ≥ cfg.checkInterval)
    (hpos : 0 < cfg.checkInterval)
    (hdead : ¬(s.managerPresent = true ∧ (obs.capOpen = true ∨ obs.isRec = true))) :
    ((¬(obs.candidateFound = true ∧ obs.probeOk = true ∧ obs.startOk = true)) →
      s.retries + 1 < cfg.maxRetries →
        (rtspStep cfg s now obs).retries = s.retries + 1
        ∧ (rtspStep cfg s now obs).lastCheck = now)
    ∧ ((obs.candidateFound = true ∧ obs.probeOk = true ∧ obs.startOk = true) →
        (rtspStep cfg s now obs).retries = 0
        ∧ (rtspStep cfg s now obs).status = .online)
    ∧ ((¬(obs.candidateFound = true ∧ obs.probeOk = true ∧ obs.startOk = true)) →
      cfg.maxRetries ≤ s.retries + 1 →
        (rtspStep cfg s now obs).retries = 0
        ∧ (rtspStep cfg s now obs).lastCheck = now + cfg.checkInterval * 4
        ∧ ∀ (t : ℚ) (obs2 : RtspObs), t < now + cfg.checkInterval * 5 →
            rtspStep cfg (rtspStep cfg s now obs) t obs2 = rtspStep cfg s now obs) := by
  have hstep : rtspStep cfg s now obs =
      rtspDefer cfg
        (rtspAttempt
          { s with retries := s.retries + 1, managerPresent := false, lastCheck := now }
          obs)
        now := by
    unfold rtspStep
    rw [if_pos hdue, if_neg hdead]
  refine ⟨?_, ?_, ?_⟩
  · intro hfail hlt
    rw [hstep]
    unfold rtspAttempt rtspDefer
    by_cases hc : obs.candidateFound = true
    · by_cases hpr : obs.probeOk = true
      · by_cases hst : obs.startOk = true
        · exact absurd ⟨hc, hpr, hst⟩ hfail
        · rw [if_pos hc, if_pos hpr, if_neg hst]
          rw [if_neg (by simp; omega)]
          exact ⟨rfl, rfl⟩
      · rw [if_pos hc, if_neg hpr]
        rw [if_neg (by simp; omega)]
        exact ⟨rfl, rfl⟩
    · rw [if_neg hc]
      rw [if_neg (by simp; omega)]
      exact ⟨rfl, rfl⟩
  · intro ⟨hc, hpr, hst⟩
    rw [hstep]
    unfold rtspAttempt rtspDefer
    rw [if_pos hc, if_pos hpr, if_pos hst]
    split
    · exact ⟨rfl, rfl⟩
    · exact ⟨rfl, rfl⟩
  · intro hfail hge
    have hlate : ∀ (t : ℚ) (obs2 : RtspObs), t < now + cfg.checkInterval * 5 →
        ∀ s2 : RtspState, s2.lastCheck = now + cfg.checkInterval * 4 →
          rtspStep cfg s2 t obs2 = s2 := by
      intro t obs2 ht s2 hs2
      unfold rtspStep
      rw [if_neg (by rw [hs2]; intro hcon; linarith)]
    rw [hstep]
    unfold rtspAttempt rtspDefer
    by_cases hc : obs.candidateFound = true
    · by_cases hpr : obs.probeOk = true
      · by_cases hst : obs.startOk = true
        · exact absurd ⟨hc, hpr, hst⟩ hfail
        · rw [if_pos hc, if_pos hpr, if_neg hst]
          rw [if_pos (by simpa using hge)]
          exact ⟨rfl, rfl, fun t obs2 ht => hlate t obs2 ht _ rfl⟩
      · rw [if_pos hc, if_neg hpr]
        rw [if_pos (by simpa using hge)]
        exact ⟨rfl, rfl, fun t obs2 ht => hlate t obs2 ht _ rfl⟩
    · rw [if_neg hc]
      rw [if_pos (by simpa using hge)]
      exact ⟨rfl, rfl, fun t obs2 ht => hlate t obs2 ht _ rfl⟩

/-- Witness for **C8 amended**: one failed check at `retries = 2`
increments the counter to 3 with the next check at the normal
interval. -/
theorem c8_retry_counter_amended_witness :
    ((5 : ℚ) - rtspStEx.lastCheck ≥ rtspCfgEx.checkInterval)
    ∧ (0 : ℚ) < rtspCfgEx.checkInterval
    ∧ ¬(rtspStEx.managerPresent = true
        ∧ (rtspObsFail.capOpen = true ∨ rtspObsFail.isRec = true))
    ∧ ¬(rtspObsFail.candidateFound = true ∧ rtspObsFail.probeOk = true
        ∧ rtspObsFail.startOk = true)
    ∧ rtspCfgEx.maxRetries ≤ rtspStEx.retries + 1
    ∧ (rtspStep rtspCfgEx rtspStEx 5 rtspObsFail).retries = 0
    ∧ (rtspStep rtspCfgEx rtspStEx 5 rtspObsFail).lastCheck
        = 5 + rtspCfgEx.checkInterval * 4 :=
  ⟨by decide, by decide, by decide, by decide, by decide,
    ((c8_retry_counter_amended rtspCfgEx rtspStEx 5 rtspObsFail (by decide)
      (by decide) (by decide)).2.2 (by decide) (by decide)).1,
    ((c8_retry_counter_amended rtspCfgEx rtspStEx 5 rtspObsFail (by decide)
      (by decide) (by decide)).2.2 (by decide) (by decide)).2.1⟩

end RtspClaims

theorem vmReleaseWriter_rec (s : VMState) :
    (vmReleaseWriter s).1.recording = s.recording := by
  unfold vmReleaseWriter; split <;> simp

theorem vmStopAudio_rec (s : VMState) :
    (vmStopAudio s).1.recording = s.recording := by
  unfold vmStopAudio; split <;> simp

theorem vmFinalize_rec (s : VMState) :
    (vmFinalize s).1.recording = s.recording := by
  unfold vmFinalize; repeat' split
  all_goals simp

/-- **C9** (confirmed): in the recording pipeline, (a) `stop_recording`
called when not recording returns immediately — the state is unchanged
and no file is touched; (b) `write_frame` when not recording changes
nothing and writes nothing to the video sink; (c) after any
`stop_recording` the manager is not recording, so (d) a `write_frame`
following a `stop_recording` is a no-op, and (e) so is a `write_frame`
on a freshly constructed manager, before any start. -/
theorem c9_stop_and_write_are_noops :
    (∀ s : VMState, s.recording = false → stopRecording s = (s, []))
    ∧ (∀ (s : VMState) (f : ℕ), s.recording = false → writeFrame s f = s)
    ∧ (∀ s : VMState, (stopRecording s).1.recording = false)
    ∧ (∀ (s : VMState) (f : ℕ), writeFrame (stopRecording s).1 f = (stopRecording s).1)
    ∧ ∀ (ae : Bool) (f : ℕ), writeFrame (initVM ae) f = initVM ae := by
  have h1 : ∀ s : VMState, s.recording = false → stopRecording s = (s, []) := by
    intro s h
    unfold stopRecording
    rw [if_pos (by simp [h])]
  have h2 : ∀ (s : VMState) (f : ℕ), s.recording = false → writeFrame s f = s := by
    intro s f h
    unfold writeFrame
    rw [if_neg (by simp [h])]
  have h3 : ∀ s : VMState, (stopRecording s).1.recording = false := by
    intro s
    unfold stopRecording
    by_cases h : s.recording = false
    · rw [if_pos (by simp [h])]
      exact h
    · rw [if_neg (by simpa using h)]
      rw [vmFinalize_rec, vmStopAudio_rec, vmReleaseWriter_rec]
  refine ⟨h1, h2, h3, ?_, ?_⟩
  · intro s f
    exact h2 _ f (h3 s)
  · intro ae f
    exact h2 _ f rfl

/-- Witness for **C9**: a fresh no-audio manager and a mid-recording
manager. -/
theorem c9_stop_and_write_are_noops_witness :
    (initVM false).recording = false
    ∧ stopRecording (initVM false) = (initVM false, [])
    ∧ writeFrame (initVM false) 5 = initVM false
    ∧ writeFrame (stopRecording vmRecEx).1 9 = (stopRecording vmRecEx).1 :=
  ⟨rfl, c9_stop_and_write_are_noops.1 (initVM false) rfl,
    c9_stop_and_write_are_noops.2.1 (initVM false) 5 rfl,
    c9_stop_and_write_are_noops.2.2.2.1 vmRecEx 9⟩
